import Mathlib

/-!
# auth-system: session service, boundary handlers and gatekeeper

A shallow embedding of `internal/auth/{repository,service,handler}.go` and
`internal/middleware/auth_middleware.go`.

* The two backing stores (users table, Redis ledger) are explicit state (`World`).
* Everything a call obtains from outside the program text (clock reading, fresh
  UUID, bcrypt salt, store failures, rows committed by concurrent requests) is an
  explicit input (`Env`).
* The JWT and bcrypt libraries are parameters (`JWT`, `Bcrypt`); what is assumed of
  them is stated as a hypothesis at the theorem that needs it.
* `uint` is a 64-bit unsigned integer; `int` and `time.Duration` are 64-bit signed.
-/

namespace AuthSystem

set_option linter.dupNamespace false

/-! ## Errors -/

deriving instance DecidableEq for Except

/-- Error values produced by the external collaborators (gorm, go-redis, bcrypt,
jwt, strconv). None of them is one of the service's own sentinel errors. -/
inductive ExtError where
  | recordNotFound
  | uniqueViolation
  | redisNil
  | strconvErr
  | tokenMalformed
  | tokenUnverifiable
  | tokenSignatureInvalid
  | tokenExpired
  | unexpectedSigningMethod
  | unavailable
  | other (msg : String)
  deriving DecidableEq, Repr

/-- Error values returned by the session service: the five package-level sentinels of
`service.go`, an external error passed through unchanged, or an external error wrapped
by `fmt.Errorf("<msg>: %w", err)`. -/
inductive Error where
  | ErrUserNotFound
  | ErrInvalidPassword
  | ErrEmailTaken
  | ErrTokenInvalid
  | ErrRefreshTokenRevoked
  | external (e : ExtError)
  | wrapped (msg : String) (e : ExtError)
  deriving DecidableEq, Repr

/-- Representative message text of an external error (only used below to render
`err.Error()` of a passed-through error; no handler ever emits it). -/
def ExtError.Error : ExtError → String
  | .recordNotFound => "record not found"
  | .uniqueViolation => "duplicate key value violates unique constraint"
  | .redisNil => "redis: nil"
  | .strconvErr => "strconv.ParseUint: parsing error"
  | .tokenMalformed => "token is malformed"
  | .tokenUnverifiable => "token is unverifiable"
  | .tokenSignatureInvalid => "token signature is invalid"
  | .tokenExpired => "token has invalid claims: token is expired"
  | .unexpectedSigningMethod => "unexpected signing method"
  | .unavailable => "connection refused"
  | .other msg => msg

/-- The `Error()` text of a service error (sentinel texts are those of `service.go`). -/
def Error.Error : Error → String
  | .ErrUserNotFound => "user not found"
  | .ErrInvalidPassword => "invalid password"
  | .ErrEmailTaken => "email is already taken"
  | .ErrTokenInvalid => "token is invalid"
  | .ErrRefreshTokenRevoked => "refresh token has been revoked"
  | .external e => e.Error
  | .wrapped msg e => msg ++ ": " ++ e.Error

/-! ## Time, durations, machine integers -/

/-- An instant, in nanoseconds since the Unix epoch. -/
abbrev Time := Int

/-- A `time.Duration`: signed 64-bit count of nanoseconds. -/
abbrev Duration := Int

def Second : Duration := 1000000000

def Minute : Duration := 60 * Second

/-- Two's-complement wrap-around of a mathematical integer into `int64`. -/
def wrapInt64 (x : Int) : Int := (x + 2 ^ 63) % 2 ^ 64 - 2 ^ 63

/-- The size of the `uint` type. -/
def uintSize : Nat := 2 ^ 64

/-- The zero value of `time.Time` (January 1, year 1, 00:00 UTC). -/
def zeroTime : Time := -62135596800 * Second

/-- `jwt.NewNumericDate(t)`: the instant truncated to whole seconds. -/
def NewNumericDate (t : Time) : Time := t - t % Second

/-! ## strconv / fmt on unsigned integers -/

/-- `fmt.Sprint(n)` for an unsigned integer: its decimal digits. -/
def Sprint (n : Nat) : String := String.mk (Nat.toDigits 10 n)

/-- Accumulate decimal digits left to right; `none` on a non-digit character. -/
def parseDigits : List Char → Nat → Option Nat
  | [], acc => some acc
  | c :: cs, acc =>
    if 48 ≤ c.toNat ∧ c.toNat ≤ 57 then parseDigits cs (acc * 10 + (c.toNat - 48)) else none

/-- `strconv.ParseUint(s, 10, 64)`: a non-empty string of decimal digits whose value
fits in 64 bits; anything else is an error (`none`). -/
def ParseUint (s : String) : Option Nat :=
  match s.data with
  | [] => none
  | cs =>
    match parseDigits cs 0 with
    | none => none
    | some v => if v < uintSize then some v else none

/-! ## models.User -/

/-- The `users` row (`models.User`). -/
structure User where
  ID : Nat
  Email : String
  PasswordHash : String
  IsVerified : Bool
  CreatedAt : Time
  UpdatedAt : Time
  deriving DecidableEq, Repr

/-! ## The two stores -/

/-- One key of the Redis ledger: the value and the expiration argument it was
`SET` with. Passive expiry is the store's own doing and is not part of any call. -/
structure LedgerEntry where
  key : String
  value : String
  ttl : Duration
  deriving DecidableEq, Repr

abbrev Ledger := List LedgerEntry

/-- Redis `GET key`. -/
def Ledger.get (l : Ledger) (k : String) : Option String :=
  (l.find? (fun e => e.key == k)).map (fun e => e.value)

/-- The recorded entry of a key, if present. -/
def Ledger.entry (l : Ledger) (k : String) : Option LedgerEntry :=
  l.find? (fun e => e.key == k)

/-- Redis `DEL key`: removes the key when present; an absent key is not an error. -/
def Ledger.del (l : Ledger) (k : String) : Ledger :=
  l.filter (fun e => e.key != k)

/-- Redis `SET key value <expiration>`: replaces any previous value of the key. -/
def Ledger.set (l : Ledger) (k v : String) (ttl : Duration) : Ledger :=
  { key := k, value := v, ttl := ttl } :: l.del k

/-- The state of both backing stores. -/
structure World where
  users : List User
  nextID : Nat
  ledger : Ledger
  deriving DecidableEq, Repr

/-- A failed write: the error reported, and whether the store had nevertheless
carried the command out before the error surfaced (e.g. a timeout on the reply). -/
structure Fault where
  err : ExtError
  applied : Bool
  deriving DecidableEq, Repr

/-- Everything one service call obtains from outside the program text. -/
structure Env where
  /-- the reading of `time.Now()` during the call -/
  now : Time
  /-- the value of `uuid.New().String()` -/
  uuid : String
  /-- the randomness bcrypt draws its salt from -/
  salt : String
  /-- failure of the `SELECT ... WHERE email = ?` round trip, if any -/
  lookupFault : Option ExtError
  /-- rows (email, password hash) committed by concurrent requests after this call's
  lookup and before its insert -/
  racing : List (String × String)
  /-- failure of the `INSERT` round trip, if any -/
  insertFault : Option Fault
  /-- failure of the Redis `GET` round trip, if any -/
  getFault : Option ExtError
  /-- failure of the Redis `DEL` round trip, if any -/
  delFault : Option Fault
  /-- failure of the Redis `SET` round trip, if any -/
  setFault : Option Fault
  deriving DecidableEq, Repr

/-! ## repository.go -/

/-- The `INSERT` into `users`: rejected by the unique index on `email`; otherwise the
row receives the next primary key and its timestamps. -/
def insertRow (w : World) (now : Time) (user : User) : World × Except ExtError User :=
  if w.users.any (fun u => u.Email == user.Email) then
    (w, .error .uniqueViolation)
  else
    let row : User :=
      { user with ID := w.nextID % uintSize, CreatedAt := now, UpdatedAt := now }
    ({ w with users := w.users ++ [row], nextID := w.nextID + 1 }, .ok row)

/-- Rows committed by concurrent requests (each through the same `INSERT`). -/
def commitRacing (w : World) (now : Time) : List (String × String) → World
  | [] => w
  | (email, hash) :: rest =>
    commitRacing
      (insertRow w now
        { ID := 0, Email := email, PasswordHash := hash, IsVerified := false,
          CreatedAt := zeroTime, UpdatedAt := zeroTime }).1 now rest

/-- `repository.CreateUser`: returns `result.Error`; on success the caller's `user`
has been filled in with the stored row. -/
def CreateUser (env : Env) (w : World) (user : User) : World × Except ExtError User :=
  match env.insertFault with
  | some f => (if f.applied then (insertRow w env.now user).1 else w, .error f.err)
  | none => insertRow w env.now user

/-- The row with the smallest primary key among `rows` (`ORDER BY id LIMIT 1`). -/
def firstByID : List User → Option User
  | [] => none
  | u :: rest =>
    match firstByID rest with
    | none => some u
    | some v => if v.ID < u.ID then some v else some u

/-- `repository.GetUserByEmail`: `Where("email = ?", email).First(&user)`. -/
def GetUserByEmail (env : Env) (w : World) (email : String) : Except ExtError User :=
  match env.lookupFault with
  | some e => .error e
  | none =>
    match firstByID (w.users.filter (fun u => u.Email == email)) with
    | none => .error .recordNotFound
    | some u => .ok u

/-- `repository.StoreRefreshToken`: `SET tokenID fmt.Sprint(userID) expiresIn`. -/
def StoreRefreshToken (env : Env) (w : World) (userID : Nat) (tokenID : String)
    (expiresIn : Duration) : World × Option ExtError :=
  let stored : World := { w with ledger := w.ledger.set tokenID (Sprint userID) expiresIn }
  match env.setFault with
  | some f => (if f.applied then stored else w, some f.err)
  | none => (stored, none)

/-- `repository.GetRefreshTokenUserID`: `GET tokenID`, then `strconv.ParseUint`. -/
def GetRefreshTokenUserID (env : Env) (w : World) (tokenID : String) : Except ExtError Nat :=
  match env.getFault with
  | some e => .error e
  | none =>
    match w.ledger.get tokenID with
    | none => .error .redisNil
    | some val =>
      match ParseUint val with
      | none => .error .strconvErr
      | some userID => .ok userID

/-- `repository.RevokeRefreshToken`: `DEL tokenID`, returning only the command's error. -/
def RevokeRefreshToken (env : Env) (w : World) (tokenID : String) : World × Option ExtError :=
  let deleted : World := { w with ledger := w.ledger.del tokenID }
  match env.delFault with
  | some f => (if f.applied then deleted else w, some f.err)
  | none => (deleted, none)

/-! ## The JWT library (github.com/golang-jwt/jwt/v5) -/

/-- The registered signing methods a token header may name. -/
inductive SigningMethod where
  | HS256 | HS384 | HS512
  | RS256 | RS384 | RS512
  | PS256 | PS384 | PS512
  | ES256 | ES384 | ES512
  | EdDSA
  | none
  deriving DecidableEq, Repr

/-- The test `token.Method.(*jwt.SigningMethodHMAC)`. -/
def SigningMethod.isHMAC : SigningMethod → Bool
  | .HS256 | .HS384 | .HS512 => true
  | _ => false

/-- The claim set `jwt.RegisteredClaims`; numeric dates are instants at whole seconds,
absent when the claim is not set. -/
structure RegisteredClaims where
  Issuer : String
  Subject : String
  Audience : List String
  ExpiresAt : Option Time
  NotBefore : Option Time
  IssuedAt : Option Time
  ID : String
  deriving DecidableEq, Repr

/-- A parsed token (`jwt.Token`). -/
structure Token where
  Method : SigningMethod
  Claims : RegisteredClaims
  Valid : Bool
  deriving DecidableEq, Repr

/-- The serialisation and signature primitives of the JWT library, taken as a
parameter of the model.
* `SignedString m claims key` is `jwt.NewWithClaims(m, claims).SignedString(key)`;
* `parseUnverified s` decodes the header and claims segments of a compact token,
  `none` when the string is malformed or names no registered method;
* `verify m s key` is the signature check of `s` under method `m` with the byte
  key `key`. -/
structure JWT where
  SignedString : SigningMethod → RegisteredClaims → String → Except ExtError String
  parseUnverified : String → Option (SigningMethod × RegisteredClaims)
  verify : SigningMethod → String → String → Bool

/-- The default claims validation of jwt/v5 at instant `now`: an `exp` claim, when
present, must lie strictly after `now`; an `nbf` claim, when present, must not lie
after `now`. -/
def validateClaims (now : Time) (claims : RegisteredClaims) : Bool :=
  (match claims.ExpiresAt with
   | Option.none => true
   | some exp => decide (now < exp)) &&
  (match claims.NotBefore with
   | Option.none => true
   | some nbf => decide (nbf ≤ now))

/-- `jwt.ParseWithClaims(tokenString, &jwt.RegisteredClaims{}, keyFunc)` at instant
`now`: decode, ask `keyFunc` for the key, check the signature, validate the claims. -/
def ParseWithClaims (jwt : JWT) (now : Time) (tokenString : String)
    (keyFunc : SigningMethod → Except ExtError String) : Except ExtError Token :=
  match jwt.parseUnverified tokenString with
  | Option.none => .error .tokenMalformed
  | some (method, claims) =>
    match keyFunc method with
    | .error _ => .error .tokenUnverifiable
    | .ok key =>
      if jwt.verify method tokenString key then
        if validateClaims now claims then
          .ok { Method := method, Claims := claims, Valid := true }
        else .error .tokenExpired
      else .error .tokenSignatureInvalid

/-- The JWT library signs `claims` under `key` as the compact string `t`: HS256 signing
succeeds with `t`, `t` is not empty, and `t` decodes back to the same claims and passes
the HS256 signature check under `key`. -/
def JWT.Signs (jwt : JWT) (claims : RegisteredClaims) (key : String) (t : String) : Prop :=
  jwt.SignedString .HS256 claims key = .ok t ∧ t ≠ "" ∧
    jwt.parseUnverified t = some (.HS256, claims) ∧ jwt.verify .HS256 t key = true

/-! ## The bcrypt library (golang.org/x/crypto/bcrypt) -/

/-- The two bcrypt entry points used by the service, taken as a parameter.
`GenerateFromPassword password salt` hashes at `bcrypt.DefaultCost` with the given
randomness; `CompareHashAndPassword hash password` is `true` exactly when the Go
function returns a nil error. -/
structure Bcrypt where
  GenerateFromPassword : String → String → Except ExtError String
  CompareHashAndPassword : String → String → Bool

/-! ## service.go -/

/-- The `service` struct; its `repo` field is the repository above, acting on `World`. -/
structure service where
  jwtSecret : String
  accessTokenTTL : Duration
  refreshTokenTTL : Duration
  deriving DecidableEq, Repr

/-- `NewService`: the TTLs are given in minutes and multiplied out in `int64`. -/
def NewService (jwtSecret : String) (accessTTL refreshTTL : Int) : service :=
  { jwtSecret := jwtSecret,
    accessTokenTTL := wrapInt64 (wrapInt64 accessTTL * Minute),
    refreshTokenTTL := wrapInt64 (wrapInt64 refreshTTL * Minute) }

/-- The claims signed by `createAccessToken`. -/
def accessClaims (s : service) (env : Env) (user : User) : RegisteredClaims :=
  { Issuer := "", Subject := Sprint user.ID, Audience := [],
    ExpiresAt := some (NewNumericDate (env.now + s.accessTokenTTL)),
    NotBefore := Option.none,
    IssuedAt := some (NewNumericDate env.now),
    ID := "" }

/-- The claims signed by `createRefreshToken` for the token identifier `tokenID`. -/
def refreshClaims (s : service) (env : Env) (user : User) (tokenID : String) :
    RegisteredClaims :=
  { Issuer := "", Subject := Sprint user.ID, Audience := [],
    ExpiresAt := some (NewNumericDate (env.now + s.refreshTokenTTL)),
    NotBefore := Option.none,
    IssuedAt := some (NewNumericDate env.now),
    ID := tokenID }

/-- The value `&models.User{ID: userID}` built by `Refresh`. -/
def userWithID (userID : Nat) : User :=
  { ID := userID, Email := "", PasswordHash := "", IsVerified := false,
    CreatedAt := zeroTime, UpdatedAt := zeroTime }

/-- `service.createAccessToken`. -/
def service.createAccessToken (s : service) (jwt : JWT) (env : Env) (user : User) :
    Except Error String :=
  match jwt.SignedString .HS256 (accessClaims s env user) s.jwtSecret with
  | .error e => .error (.external e)
  | .ok tokenString => .ok tokenString

/-- `service.createRefreshToken`: mint under a fresh UUID, then record the UUID in the
ledger for the user's id with the refresh TTL. -/
def service.createRefreshToken (s : service) (jwt : JWT) (env : Env) (w : World)
    (user : User) : World × Except Error String :=
  let tokenID := env.uuid
  match jwt.SignedString .HS256 (refreshClaims s env user tokenID) s.jwtSecret with
  | .error e => (w, .error (.external e))
  | .ok tokenString =>
    match StoreRefreshToken env w user.ID tokenID s.refreshTokenTTL with
    | (w1, some e) => (w1, .error (.external e))
    | (w1, Option.none) => (w1, .ok tokenString)

/-- `service.validateToken`: parse with a key function that refuses every non-HMAC
method; each failure is reported as `ErrTokenInvalid`. -/
def service.validateToken (s : service) (jwt : JWT) (now : Time) (tokenString : String) :
    Except Error RegisteredClaims :=
  match ParseWithClaims jwt now tokenString
      (fun method =>
        if method.isHMAC then .ok s.jwtSecret else .error .unexpectedSigningMethod) with
  | .error _ => .error .ErrTokenInvalid
  | .ok token => if token.Valid then .ok token.Claims else .error .ErrTokenInvalid

/-- `service.Register`. -/
def service.Register (_s : service) (bc : Bcrypt) (env : Env) (w : World)
    (email password : String) : World × Except Error User :=
  match GetUserByEmail env w email with
  | .ok _ => (w, .error .ErrEmailTaken)
  | .error _ =>
    match bc.GenerateFromPassword password env.salt with
    | .error e => (w, .error (.wrapped "could not hash password" e))
    | .ok hashedPassword =>
      let user : User :=
        { ID := 0, Email := email, PasswordHash := hashedPassword, IsVerified := false,
          CreatedAt := zeroTime, UpdatedAt := zeroTime }
      match CreateUser env (commitRacing w env.now env.racing) user with
      | (w1, .error e) => (w1, .error (.wrapped "could not create user" e))
      | (w1, .ok created) => (w1, .ok created)

/-- `service.Login`: returns `(accessToken, refreshToken, err)`. -/
def service.Login (s : service) (jwt : JWT) (bc : Bcrypt) (env : Env) (w : World)
    (email password : String) : World × String × String × Option Error :=
  match GetUserByEmail env w email with
  | .error _ => (w, "", "", some .ErrUserNotFound)
  | .ok user =>
    if bc.CompareHashAndPassword user.PasswordHash password then
      match s.createAccessToken jwt env user with
      | .error e => (w, "", "", some e)
      | .ok accessToken =>
        match s.createRefreshToken jwt env w user with
        | (w1, .error e) => (w1, "", "", some e)
        | (w1, .ok refreshToken) => (w1, accessToken, refreshToken, Option.none)
    else (w, "", "", some .ErrInvalidPassword)

/-- `service.Refresh`: returns `(newAccessToken, newRefreshToken, err)`. -/
def service.Refresh (s : service) (jwt : JWT) (env : Env) (w : World)
    (oldRefreshToken : String) : World × String × String × Option Error :=
  match s.validateToken jwt env.now oldRefreshToken with
  | .error e => (w, "", "", some e)
  | .ok claims =>
    match GetRefreshTokenUserID env w claims.ID with
    | .error _ => (w, "", "", some .ErrRefreshTokenRevoked)
    | .ok userID =>
      if Sprint userID != claims.Subject then (w, "", "", some .ErrRefreshTokenRevoked)
      else
        match RevokeRefreshToken env w claims.ID with
        | (w1, some e) => (w1, "", "", some (.external e))
        | (w1, Option.none) =>
          let user : User := userWithID userID
          match s.createAccessToken jwt env user with
          | .error e => (w1, "", "", some e)
          | .ok newAccessToken =>
            match s.createRefreshToken jwt env w1 user with
            | (w2, .error e) => (w2, "", "", some e)
            | (w2, .ok newRefreshToken) => (w2, newAccessToken, newRefreshToken, Option.none)

/-- `service.Logout`. -/
def service.Logout (s : service) (jwt : JWT) (env : Env) (w : World)
    (refreshToken : String) : World × Option Error :=
  match s.validateToken jwt env.now refreshToken with
  | .error _ => (w, some .ErrTokenInvalid)
  | .ok claims =>
    match RevokeRefreshToken env w claims.ID with
    | (w1, some e) => (w1, some (.external e))
    | (w1, Option.none) => (w1, Option.none)

/-! ## handler.go -/

/-- The part of an inbound request the handlers and the middleware read.
`json` is the outcome of `c.ShouldBindJSON(&req)` for the handler the request is
routed to: the bound `(Email, Password)`, or `none` when decoding or a binding tag
rejects the body. Cookie values are taken as already unescaped. -/
structure Request where
  Authorization : String
  cookies : List (String × String)
  json : Option (String × String)
  deriving DecidableEq, Repr

/-- `c.Cookie(name)`: the first cookie of that name, `none` for `http.ErrNoCookie`. -/
def Request.Cookie (c : Request) (name : String) : Option String :=
  (c.cookies.find? (fun kv => kv.1 == name)).map (fun kv => kv.2)

/-- One `c.SetCookie(name, value, maxAge, path, domain, secure, httpOnly)` call. -/
structure SetCookie where
  name : String
  value : String
  maxAge : Int
  path : String
  domain : String
  secure : Bool
  httpOnly : Bool
  deriving DecidableEq, Repr

/-- The JSON bodies of `handler_models.go`. -/
inductive Body where
  | ErrorResponse (Error : String)
  | LoginResponse (Message : String)
  | UserResponse (ID : Nat) (Email : String) (CreatedAt : Time)
  deriving DecidableEq, Repr

/-- What a handler writes: status, JSON body, and the cookies set, in order. -/
structure Response where
  status : Nat
  body : Body
  cookies : List SetCookie
  deriving DecidableEq, Repr

def StatusOK : Nat := 200
def StatusCreated : Nat := 201
def StatusBadRequest : Nat := 400
def StatusUnauthorized : Nat := 401
def StatusConflict : Nat := 409
def StatusInternalServerError : Nat := 500

/-- The `AuthHandler` struct (TTLs in minutes, as `int`); its `service` field is the
service above. -/
structure AuthHandler where
  accessTokenTTL : Int
  refreshTokenTTL : Int
  deriving DecidableEq, Repr

/-- The two cookies set on a successful login or refresh. -/
def AuthHandler.sessionCookies (h : AuthHandler) (accessToken refreshToken : String) :
    List SetCookie :=
  [ { name := "access_token", value := accessToken, maxAge := wrapInt64 (h.accessTokenTTL * 60),
      path := "/", domain := "", secure := true, httpOnly := true },
    { name := "refresh_token", value := refreshToken,
      maxAge := wrapInt64 (h.refreshTokenTTL * 60),
      path := "/auth", domain := "", secure := true, httpOnly := true } ]

/-- The two cookie-clearing calls of `AuthHandler.Logout`. -/
def clearedCookies : List SetCookie :=
  [ { name := "access_token", value := "", maxAge := -1,
      path := "/", domain := "", secure := true, httpOnly := true },
    { name := "refresh_token", value := "", maxAge := -1,
      path := "/auth", domain := "", secure := true, httpOnly := true } ]

/-- `AuthHandler.Register`. -/
def AuthHandler.Register (_h : AuthHandler) (s : service) (bc : Bcrypt) (env : Env)
    (w : World) (c : Request) : World × Response :=
  match c.json with
  | Option.none =>
    (w, { status := StatusBadRequest, body := .ErrorResponse "Invalid request body",
          cookies := [] })
  | some (email, password) =>
    if email == "" || password == "" then
      (w, { status := StatusBadRequest,
            body := .ErrorResponse "Email and password are required", cookies := [] })
    else
      match s.Register bc env w email password with
      | (w1, .error err) =>
        if err = .ErrEmailTaken then
          (w1, { status := StatusConflict, body := .ErrorResponse err.Error, cookies := [] })
        else
          (w1, { status := StatusInternalServerError,
                 body := .ErrorResponse "Failed to create user", cookies := [] })
      | (w1, .ok user) =>
        (w1, { status := StatusCreated,
               body := .UserResponse user.ID user.Email user.CreatedAt, cookies := [] })

/-- `AuthHandler.Login`. -/
def AuthHandler.Login (h : AuthHandler) (s : service) (jwt : JWT) (bc : Bcrypt) (env : Env)
    (w : World) (c : Request) : World × Response :=
  match c.json with
  | Option.none =>
    (w, { status := StatusBadRequest, body := .ErrorResponse "Invalid request body",
          cookies := [] })
  | some (email, password) =>
    match s.Login jwt bc env w email password with
    | (w1, _, _, some _) =>
      (w1, { status := StatusUnauthorized, body := .ErrorResponse "Invalid credentials",
             cookies := [] })
    | (w1, accessToken, refreshToken, Option.none) =>
      (w1, { status := StatusOK, body := .LoginResponse "Logged in successfully",
             cookies := h.sessionCookies accessToken refreshToken })

/-- `AuthHandler.Refresh`. -/
def AuthHandler.Refresh (h : AuthHandler) (s : service) (jwt : JWT) (env : Env)
    (w : World) (c : Request) : World × Response :=
  match c.Cookie "refresh_token" with
  | Option.none =>
    (w, { status := StatusUnauthorized, body := .ErrorResponse "Refresh token not found",
          cookies := [] })
  | some refreshToken =>
    match s.Refresh jwt env w refreshToken with
    | (w1, _, _, some _) =>
      (w1, { status := StatusUnauthorized,
             body := .ErrorResponse "Invalid or expired refresh token", cookies := [] })
    | (w1, newAccessToken, newRefreshToken, Option.none) =>
      (w1, { status := StatusOK, body := .LoginResponse "Tokens refreshed successfully",
             cookies := h.sessionCookies newAccessToken newRefreshToken })

/-- `AuthHandler.Logout`. -/
def AuthHandler.Logout (_h : AuthHandler) (s : service) (jwt : JWT) (env : Env)
    (w : World) (c : Request) : World × Response :=
  match c.Cookie "refresh_token" with
  | Option.none =>
    (w, { status := StatusUnauthorized,
          body := .ErrorResponse "No active session to log out", cookies := [] })
  | some refreshToken =>
    match s.Logout jwt env w refreshToken with
    | (w1, some _) =>
      (w1, { status := StatusInternalServerError, body := .ErrorResponse "Failed to log out",
             cookies := clearedCookies })
    | (w1, Option.none) =>
      (w1, { status := StatusOK, body := .LoginResponse "Logged out successfully",
             cookies := clearedCookies })

/-! ## auth_middleware.go -/

/-- `strings.Split(s, " ")` on the characters of `s`. -/
def splitSpace : List Char → List (List Char)
  | [] => [[]]
  | c :: cs =>
    match splitSpace cs with
    | [] => [[c]]
    | p :: ps => if c = ' ' then [] :: p :: ps else (c :: p) :: ps

/-- What the middleware does with a request: abort with a status and a JSON
`error` text, or set `userID` in the context and call the next handler. -/
inductive Outcome where
  | abort (status : Nat) (error : String)
  | next (userID : String)
  deriving DecidableEq, Repr

/-- `AuthMiddleware(jwtSecret)` applied to a request at instant `now`. -/
def AuthMiddleware (jwt : JWT) (jwtSecret : String) (now : Time) (c : Request) : Outcome :=
  let header : Option String :=
    if c.Authorization == "" then
      match c.Cookie "access_token" with
      | Option.none => Option.none
      | some cookie => some ("Bearer " ++ cookie)
    else some c.Authorization
  match header with
  | Option.none => .abort StatusUnauthorized "Authorization token not provided"
  | some authHeader =>
    match (splitSpace authHeader.data).map String.mk with
    | [bearer, tokenString] =>
      if bearer != "Bearer" then
        .abort StatusUnauthorized "Invalid authorization header format"
      else
        match ParseWithClaims jwt now tokenString (fun _ => .ok jwtSecret) with
        | .error _ => .abort StatusUnauthorized "Invalid or expired token"
        | .ok token =>
          if token.Valid then .next token.Claims.Subject
          else .abort StatusUnauthorized "Invalid or expired token"
    | _ => .abort StatusUnauthorized "Invalid authorization header format"

/-! ## Refresh as a sequence of ledger operations

`service.Refresh` touches the ledger three times (`GET`, `DEL`, `SET`). To speak about
two calls running concurrently, the same code is cut at those three operations: each
step performs exactly one ledger command together with the local computation that
leads up to it. -/

/-- Where a `Refresh` call stands. -/
inductive RefreshPC where
  /-- nothing done yet -/
  | start (oldRefreshToken : String)
  /-- the token verified and `GET` returned the matching user id; `DEL` is next -/
  | lookedUp (claims : RegisteredClaims) (userID : Nat)
  /-- the old identifier has been deleted; minting and `SET` are next -/
  | revoked (userID : Nat)
  /-- the call has returned `(accessToken, refreshToken, err)` -/
  | returned (accessToken refreshToken : String) (err : Option Error)
  deriving DecidableEq, Repr

/-- One step of a `Refresh` call: the code of `service.Refresh` up to and including
its next ledger command. A call that has returned does nothing. -/
def service.refreshStep (s : service) (jwt : JWT) (env : Env) (w : World) :
    RefreshPC → World × RefreshPC
  | .start oldRefreshToken =>
    match s.validateToken jwt env.now oldRefreshToken with
    | .error e => (w, .returned "" "" (some e))
    | .ok claims =>
      match GetRefreshTokenUserID env w claims.ID with
      | .error _ => (w, .returned "" "" (some .ErrRefreshTokenRevoked))
      | .ok userID =>
        if Sprint userID != claims.Subject then
          (w, .returned "" "" (some .ErrRefreshTokenRevoked))
        else (w, .lookedUp claims userID)
  | .lookedUp claims userID =>
    match RevokeRefreshToken env w claims.ID with
    | (w1, some e) => (w1, .returned "" "" (some (.external e)))
    | (w1, Option.none) => (w1, .revoked userID)
  | .revoked userID =>
    let user : User := userWithID userID
    match s.createAccessToken jwt env user with
    | .error e => (w, .returned "" "" (some e))
    | .ok newAccessToken =>
      match s.createRefreshToken jwt env w user with
      | (w2, .error e) => (w2, .returned "" "" (some e))
      | (w2, .ok newRefreshToken) => (w2, .returned newAccessToken newRefreshToken Option.none)
  | .returned a r e => (w, .returned a r e)

/-- A call run alone: its three steps in a row. -/
def service.refreshSteps (s : service) (jwt : JWT) (env : Env) (w : World)
    (oldRefreshToken : String) : World × RefreshPC :=
  let st1 := s.refreshStep jwt env w (.start oldRefreshToken)
  let st2 := s.refreshStep jwt env st1.1 st1.2
  s.refreshStep jwt env st2.1 st2.2

/-- Two `Refresh` calls `a` and `b` sharing the stores. -/
structure Race where
  world : World
  a : RefreshPC
  b : RefreshPC
  deriving DecidableEq, Repr

/-- Run two calls under a schedule: `true` lets call `a` take its next step, `false`
lets call `b` take its next step. -/
def service.interleave (s : service) (jwt : JWT) (envA envB : Env) : List Bool → Race → Race
  | [], st => st
  | true :: rest, st =>
    let r := s.refreshStep jwt envA st.world st.a
    s.interleave jwt envA envB rest { world := r.1, a := r.2, b := st.b }
  | false :: rest, st =>
    let r := s.refreshStep jwt envB st.world st.b
    s.interleave jwt envA envB rest { world := r.1, a := st.a, b := r.2 }

/-- The number of steps a call still has to take. -/
def RefreshPC.stepsLeft : RefreshPC → Nat
  | .start _ => 3
  | .lookedUp _ _ => 2
  | .revoked _ => 1
  | .returned _ _ _ => 0

/-- A call has returned successfully. -/
def RefreshPC.succeeded : RefreshPC → Bool
  | .returned _ _ Option.none => true
  | _ => false

/-! ## A worked scenario

Concrete library instances and inputs on which the statements below are evaluated. -/

/-- The service with the default configuration of `config.go` (15 minutes, 7 days). -/
def demoService : service := NewService "a-very-secret-key" 15 10080

def demoHandler : AuthHandler := { accessTokenTTL := 15, refreshTokenTTL := 10080 }

/-- A clock reading with no failure, the given UUID, and no concurrent writers. -/
def demoEnv (now : Time) (uuid : String) : Env :=
  { now := now, uuid := uuid, salt := "salt", lookupFault := Option.none, racing := [],
    insertFault := Option.none, getFault := Option.none, delFault := Option.none,
    setFault := Option.none }

def demoUser : User :=
  { ID := 1, Email := "a@x.com", PasswordHash := "bcrypt(password123)", IsVerified := false,
    CreatedAt := 0, UpdatedAt := 0 }

/-- The refresh token claims minted at instant 0 for user 1 under identifier `id`. -/
def demoRefreshClaims (id : String) : RegisteredClaims :=
  refreshClaims demoService (demoEnv 0 id) demoUser id

/-- A token codec on a handful of strings: a token is written `"<subject>.<id>"`, and the
strings `"1.r1"`, `"1.r2"`, `"1.r3"` and `"1."` read back as the claims minted at
instant 0; every such token is signed under the demo secret with HS256. -/
def demoJWT : JWT :=
  { SignedString := fun _ claims _ => .ok (claims.Subject ++ "." ++ claims.ID),
    parseUnverified := fun t =>
      if t = "1.r1" then some (.HS256, demoRefreshClaims "r1")
      else if t = "1.r2" then some (.HS256, demoRefreshClaims "r2")
      else if t = "1.r3" then some (.HS256, demoRefreshClaims "r3")
      else if t = "1." then some (.HS256, accessClaims demoService (demoEnv 0 "") demoUser)
      else Option.none,
    verify := fun m _ key => m.isHMAC && key == "a-very-secret-key" }

/-- A stand-in password hash: `bcrypt(<password>)`, salt ignored. -/
def demoBcrypt : Bcrypt :=
  { GenerateFromPassword := fun password _ => .ok ("bcrypt(" ++ password ++ ")"),
    CompareHashAndPassword := fun hash password => hash == "bcrypt(" ++ password ++ ")" }

/-- Stores holding user 1 and the ledger entry of refresh token `"1.r1"`. -/
def demoWorld : World :=
  { users := [demoUser], nextID := 2,
    ledger := [{ key := "r1", value := "1", ttl := demoService.refreshTokenTTL }] }

/-- Empty stores. -/
def emptyWorld : World := { users := [], nextID := 1, ledger := [] }



/-! ## Ledger facts -/

theorem Ledger.del_nil (k : String) : Ledger.del [] k = [] := rfl

theorem Ledger.del_cons (e : LedgerEntry) (rest : Ledger) (k : String) :
    Ledger.del (e :: rest) k = if e.key = k then Ledger.del rest k else e :: Ledger.del rest k := by
  by_cases h : e.key = k <;> simp [Ledger.del, List.filter_cons, h]

theorem Ledger.entry_cons (e : LedgerEntry) (rest : Ledger) (k : String) :
    Ledger.entry (e :: rest) k = if e.key = k then some e else Ledger.entry rest k := by
  by_cases h : e.key = k <;> simp [Ledger.entry, List.find?_cons, h]

theorem Ledger.get_eq_entry (l : Ledger) (k : String) :
    l.get k = (l.entry k).map (fun e => e.value) := rfl

theorem Ledger.entry_del_self (l : Ledger) (k : String) : (l.del k).entry k = none := by
  induction l with
  | nil => rfl
  | cons e rest ih =>
    rw [Ledger.del_cons]
    by_cases h : e.key = k
    · rw [if_pos h]; exact ih
    · rw [if_neg h, Ledger.entry_cons, if_neg h]; exact ih

theorem Ledger.entry_del_ne (l : Ledger) (k j : String) (h : j ≠ k) :
    (l.del k).entry j = l.entry j := by
  induction l with
  | nil => rfl
  | cons e rest ih =>
    rw [Ledger.del_cons, Ledger.entry_cons]
    by_cases hk : e.key = k
    · have hj : ¬ e.key = j := fun hj => h (hj.symm.trans hk)
      rw [if_pos hk, if_neg hj]; exact ih
    · rw [if_neg hk, Ledger.entry_cons]
      by_cases hj : e.key = j
      · rw [if_pos hj, if_pos hj]
      · rw [if_neg hj, if_neg hj]; exact ih

theorem Ledger.get_del_self (l : Ledger) (k : String) : (l.del k).get k = none := by
  rw [Ledger.get_eq_entry, Ledger.entry_del_self]; rfl

theorem Ledger.get_del_ne (l : Ledger) (k j : String) (h : j ≠ k) :
    (l.del k).get j = l.get j := by
  rw [Ledger.get_eq_entry, Ledger.get_eq_entry, Ledger.entry_del_ne l k j h]

theorem Ledger.entry_set_self (l : Ledger) (k v : String) (ttl : Duration) :
    (l.set k v ttl).entry k = some { key := k, value := v, ttl := ttl } := by
  rw [Ledger.set, Ledger.entry_cons, if_pos rfl]

theorem Ledger.entry_set_ne (l : Ledger) (k v : String) (ttl : Duration) (j : String)
    (h : j ≠ k) : (l.set k v ttl).entry j = l.entry j := by
  have hk : ¬ k = j := fun e => h e.symm
  rw [Ledger.set, Ledger.entry_cons, if_neg hk]
  exact Ledger.entry_del_ne l k j h

theorem Ledger.get_set_self (l : Ledger) (k v : String) (ttl : Duration) :
    (l.set k v ttl).get k = some v := by
  rw [Ledger.get_eq_entry, Ledger.entry_set_self]; rfl

theorem Ledger.get_set_ne (l : Ledger) (k v : String) (ttl : Duration) (j : String)
    (h : j ≠ k) : (l.set k v ttl).get j = l.get j := by
  rw [Ledger.get_eq_entry, Ledger.get_eq_entry, Ledger.entry_set_ne l k v ttl j h]

theorem Ledger.get_none_iff_entry (l : Ledger) (k : String) :
    l.get k = none ↔ l.entry k = none := by
  rw [Ledger.get_eq_entry]; cases l.entry k <;> simp

theorem Ledger.del_of_entry_none (l : Ledger) (k : String) (h : l.entry k = none) :
    l.del k = l := by
  induction l with
  | nil => rfl
  | cons e rest ih =>
    rw [Ledger.entry_cons] at h
    by_cases hk : e.key = k
    · rw [if_pos hk] at h; cases h
    · rw [if_neg hk] at h
      rw [Ledger.del_cons, if_neg hk, ih h]

theorem Ledger.del_del (l : Ledger) (k : String) : (l.del k).del k = l.del k :=
  Ledger.del_of_entry_none _ _ (Ledger.entry_del_self l k)

theorem Ledger.mem_del (l : Ledger) (k : String) (e : LedgerEntry) (h : e ∈ l.del k) :
    e ∈ l := by
  simp only [Ledger.del] at h
  exact (List.mem_filter.mp h).1



/-! ## Token verification facts -/

theorem service.validateToken_ok_iff (s : service) (jwt : JWT) (now : Time) (t : String)
    (claims : RegisteredClaims) :
    s.validateToken jwt now t = .ok claims ↔
      (∃ m, jwt.parseUnverified t = some (m, claims) ∧ m.isHMAC = true ∧
        jwt.verify m t s.jwtSecret = true) ∧ validateClaims now claims = true := by
  unfold service.validateToken ParseWithClaims
  cases hp : jwt.parseUnverified t with
  | none => simp
  | some mc =>
    obtain ⟨m, c⟩ := mc
    cases hm : m.isHMAC <;> cases hv : jwt.verify m t s.jwtSecret <;>
      cases hc : validateClaims now c <;> simp [hm, hv, hc] <;>
      first
        | (intro h; subst h; exact hc)
        | (constructor
           · intro h; subst h; exact ⟨⟨m, ⟨rfl, rfl⟩, hm, hv⟩, hc⟩
           · intro h; obtain ⟨⟨_, ⟨_, h2⟩, _⟩, _⟩ := h; exact h2)

theorem service.validateToken_error (s : service) (jwt : JWT) (now : Time) (t : String)
    (e : Error) (h : s.validateToken jwt now t = .error e) : e = .ErrTokenInvalid := by
  unfold service.validateToken at h
  split at h
  · cases h; rfl
  · split at h
    · cases h
    · cases h; rfl

/-- The claims a token string verifies to do not depend on the instant of the check. -/
theorem service.validateToken_claims_eq (s : service) (jwt : JWT) (now1 now2 : Time)
    (t : String) (c1 c2 : RegisteredClaims)
    (h1 : s.validateToken jwt now1 t = .ok c1) (h2 : s.validateToken jwt now2 t = .ok c2) :
    c1 = c2 := by
  obtain ⟨⟨m1, hp1, _⟩, _⟩ := (s.validateToken_ok_iff jwt now1 t c1).mp h1
  obtain ⟨⟨m2, hp2, _⟩, _⟩ := (s.validateToken_ok_iff jwt now2 t c2).mp h2
  rw [hp1] at hp2
  cases hp2; rfl



/-! ## What a `Refresh` call did, read off its result -/

theorem StoreRefreshToken_ok (env : Env) (w w1 : World) (userID : Nat) (tokenID : String)
    (ttl : Duration) (h : StoreRefreshToken env w userID tokenID ttl = (w1, none)) :
    env.setFault = none ∧ w1 = { w with ledger := w.ledger.set tokenID (Sprint userID) ttl } := by
  unfold StoreRefreshToken at h
  cases hf : env.setFault with
  | some f => rw [hf] at h; simp at h
  | none => rw [hf] at h; simp at h; exact ⟨rfl, h.symm⟩

theorem RevokeRefreshToken_ok (env : Env) (w w1 : World) (tokenID : String)
    (h : RevokeRefreshToken env w tokenID = (w1, none)) :
    env.delFault = none ∧ w1 = { w with ledger := w.ledger.del tokenID } := by
  unfold RevokeRefreshToken at h
  cases hf : env.delFault with
  | some f => rw [hf] at h; simp at h
  | none => rw [hf] at h; simp at h; exact ⟨rfl, h.symm⟩

theorem service.createRefreshToken_ok (s : service) (jwt : JWT) (env : Env) (w w1 : World)
    (user : User) (r : String) (h : s.createRefreshToken jwt env w user = (w1, .ok r)) :
    jwt.SignedString .HS256 (refreshClaims s env user env.uuid) s.jwtSecret = .ok r ∧
      env.setFault = none ∧
      w1 = { w with ledger := w.ledger.set env.uuid (Sprint user.ID) s.refreshTokenTTL } := by
  unfold service.createRefreshToken at h
  cases hs : jwt.SignedString .HS256 (refreshClaims s env user env.uuid) s.jwtSecret with
  | error e => simp [hs] at h
  | ok t =>
    simp only [hs] at h
    cases hst : StoreRefreshToken env w user.ID env.uuid s.refreshTokenTTL with
    | mk w2 oe =>
      rw [hst] at h
      cases oe with
      | some e => simp at h
      | none =>
        simp at h
        obtain ⟨hw, ht⟩ := h
        subst hw; subst ht
        exact ⟨rfl, StoreRefreshToken_ok env w w2 user.ID env.uuid s.refreshTokenTTL hst⟩

theorem service.createAccessToken_ok (s : service) (jwt : JWT) (env : Env) (user : User)
    (a : String) (h : s.createAccessToken jwt env user = .ok a) :
    jwt.SignedString .HS256 (accessClaims s env user) s.jwtSecret = .ok a := by
  unfold service.createAccessToken at h
  cases hs : jwt.SignedString .HS256 (accessClaims s env user) s.jwtSecret with
  | error e => simp [hs] at h
  | ok t => simp [hs] at h; rw [h]

/-- A successful `Refresh` verified the token, found the matching user id under the
token's identifier, deleted that identifier, and stored the fresh one. -/
theorem service.Refresh_ok (s : service) (jwt : JWT) (env : Env) (w w1 : World)
    (R a r : String) (h : s.Refresh jwt env w R = (w1, a, r, none)) :
    ∃ claims userID,
      s.validateToken jwt env.now R = .ok claims ∧
      GetRefreshTokenUserID env w claims.ID = .ok userID ∧
      Sprint userID = claims.Subject ∧
      env.delFault = none ∧ env.setFault = none ∧
      jwt.SignedString .HS256 (accessClaims s env (userWithID userID)) s.jwtSecret = .ok a ∧
      jwt.SignedString .HS256 (refreshClaims s env (userWithID userID) env.uuid) s.jwtSecret
        = .ok r ∧
      w1 = { w with ledger :=
              (w.ledger.del claims.ID).set env.uuid (Sprint userID) s.refreshTokenTTL } := by
  unfold service.Refresh at h
  cases hv : s.validateToken jwt env.now R with
  | error e => simp [hv] at h
  | ok claims =>
    simp only [hv] at h
    cases hg : GetRefreshTokenUserID env w claims.ID with
    | error e => simp [hg] at h
    | ok userID =>
      simp only [hg] at h
      by_cases hsub : Sprint userID = claims.Subject
      · simp only [hsub, bne_self_eq_false, Bool.false_eq_true, if_false] at h
        cases hr : RevokeRefreshToken env w claims.ID with
        | mk w2 oe =>
          rw [hr] at h
          cases oe with
          | some e => simp at h
          | none =>
            simp only at h
            obtain ⟨hdel, hw2⟩ := RevokeRefreshToken_ok env w w2 claims.ID hr
            cases ha : s.createAccessToken jwt env (userWithID userID) with
            | error e => simp [ha] at h
            | ok a2 =>
              simp only [ha] at h
              cases hc : s.createRefreshToken jwt env w2 (userWithID userID) with
              | mk w3 res =>
                rw [hc] at h
                cases res with
                | error e => simp at h
                | ok r2 =>
                  simp at h
                  obtain ⟨h1, h2, h3⟩ := h
                  subst h1; subst h2; subst h3
                  obtain ⟨hs, hset, hw3⟩ := s.createRefreshToken_ok jwt env w2 w3 _ r2 hc
                  refine ⟨claims, userID, rfl, hg, hsub, hdel, hset,
                    s.createAccessToken_ok jwt env _ a2 ha, hs, ?_⟩
                  rw [hw3, hw2]; rfl
      · have : (Sprint userID != claims.Subject) = true := by simpa using hsub
        simp [this] at h



/-! ## Failing paths of `Refresh` and `Logout` -/

theorem GetRefreshTokenUserID_absent (env : Env) (w : World) (tokenID : String)
    (h : w.ledger.get tokenID = none) : ∃ e, GetRefreshTokenUserID env w tokenID = .error e := by
  unfold GetRefreshTokenUserID
  cases env.getFault with
  | some e => exact ⟨e, rfl⟩
  | none => simp only [h]; exact ⟨_, rfl⟩

theorem GetRefreshTokenUserID_ok (env : Env) (w : World) (tokenID : String) (userID : Nat)
    (h : GetRefreshTokenUserID env w tokenID = .ok userID) :
    env.getFault = none ∧ ∃ val, w.ledger.get tokenID = some val ∧ ParseUint val = some userID := by
  unfold GetRefreshTokenUserID at h
  cases hf : env.getFault with
  | some e => simp [hf] at h
  | none =>
    simp only [hf] at h
    cases hg : w.ledger.get tokenID with
    | none => simp [hg] at h
    | some val =>
      simp only [hg] at h
      cases hp : ParseUint val with
      | none => simp [hp] at h
      | some u =>
        simp only [hp] at h
        cases h
        exact ⟨rfl, val, rfl, hp⟩

theorem service.Refresh_invalid (s : service) (jwt : JWT) (env : Env) (w : World) (R : String)
    (e : Error) (h : s.validateToken jwt env.now R = .error e) :
    s.Refresh jwt env w R = (w, "", "", some .ErrTokenInvalid) := by
  have he := s.validateToken_error jwt env.now R e h
  subst he
  unfold service.Refresh
  rw [h]

theorem service.Refresh_lookup_error (s : service) (jwt : JWT) (env : Env) (w : World)
    (R : String) (claims : RegisteredClaims) (e : ExtError)
    (hv : s.validateToken jwt env.now R = .ok claims)
    (hg : GetRefreshTokenUserID env w claims.ID = .error e) :
    s.Refresh jwt env w R = (w, "", "", some .ErrRefreshTokenRevoked) := by
  unfold service.Refresh
  rw [hv]; simp only [hg]

theorem service.Refresh_subject_mismatch (s : service) (jwt : JWT) (env : Env) (w : World)
    (R : String) (claims : RegisteredClaims) (userID : Nat)
    (hv : s.validateToken jwt env.now R = .ok claims)
    (hg : GetRefreshTokenUserID env w claims.ID = .ok userID)
    (hne : Sprint userID ≠ claims.Subject) :
    s.Refresh jwt env w R = (w, "", "", some .ErrRefreshTokenRevoked) := by
  unfold service.Refresh
  rw [hv]; simp only [hg]
  have : (Sprint userID != claims.Subject) = true := by simpa using hne
  simp [this]

theorem service.Refresh_delete_error (s : service) (jwt : JWT) (env : Env) (w w1 : World)
    (R : String) (claims : RegisteredClaims) (userID : Nat) (e : ExtError)
    (hv : s.validateToken jwt env.now R = .ok claims)
    (hg : GetRefreshTokenUserID env w claims.ID = .ok userID)
    (hsub : Sprint userID = claims.Subject)
    (hr : RevokeRefreshToken env w claims.ID = (w1, some e)) :
    s.Refresh jwt env w R = (w1, "", "", some (.external e)) := by
  unfold service.Refresh
  rw [hv]; simp only [hg, hsub, bne_self_eq_false, Bool.false_eq_true, if_false, hr]

theorem service.Refresh_absent (s : service) (jwt : JWT) (env : Env) (w : World) (R : String)
    (claims : RegisteredClaims) (hv : s.validateToken jwt env.now R = .ok claims)
    (h : w.ledger.get claims.ID = none) :
    s.Refresh jwt env w R = (w, "", "", some .ErrRefreshTokenRevoked) := by
  obtain ⟨e, he⟩ := GetRefreshTokenUserID_absent env w claims.ID h
  exact s.Refresh_lookup_error jwt env w R claims e hv he

theorem RevokeRefreshToken_subset (env : Env) (w w1 : World) (tokenID : String)
    (oe : Option ExtError) (h : RevokeRefreshToken env w tokenID = (w1, oe)) :
    (∀ entry ∈ w1.ledger, entry ∈ w.ledger) ∧ w1.users = w.users ∧ w1.nextID = w.nextID := by
  unfold RevokeRefreshToken at h
  cases hf : env.delFault with
  | some f =>
    simp only [hf] at h
    cases hap : f.applied
    · simp [hap] at h
      obtain ⟨h1, _⟩ := h
      subst h1
      exact ⟨fun _ h => h, rfl, rfl⟩
    · simp [hap] at h
      obtain ⟨h1, _⟩ := h
      subst h1
      exact ⟨fun entry h => Ledger.mem_del _ _ entry h, rfl, rfl⟩
  | none =>
    simp only [hf] at h
    cases h
    exact ⟨fun entry h => Ledger.mem_del _ _ entry h, rfl, rfl⟩

theorem service.Logout_ok (s : service) (jwt : JWT) (env : Env) (w w1 : World) (R : String)
    (h : s.Logout jwt env w R = (w1, none)) :
    ∃ claims, s.validateToken jwt env.now R = .ok claims ∧ env.delFault = none ∧
      w1 = { w with ledger := w.ledger.del claims.ID } := by
  unfold service.Logout at h
  cases hv : s.validateToken jwt env.now R with
  | error e => simp [hv] at h
  | ok claims =>
    simp only [hv] at h
    cases hr : RevokeRefreshToken env w claims.ID with
    | mk w2 oe =>
      rw [hr] at h
      cases oe with
      | some e => simp at h
      | none =>
        simp at h
        subst h
        exact ⟨claims, rfl, RevokeRefreshToken_ok env w w2 claims.ID hr⟩



/-! ## Decimal rendering and parsing of user ids -/

theorem digitChar_toNat (d : Nat) (h : d < 10) : (Nat.digitChar d).toNat = 48 + d := by
  interval_cases d <;> rfl

theorem parseDigits_toDigitsCore (fuel : Nat) :
    ∀ (n : Nat) (ds : List Char), n < fuel →
      parseDigits (Nat.toDigitsCore 10 fuel n ds) 0 = parseDigits ds n := by
  induction fuel with
  | zero => intro n ds h; omega
  | succ fuel ih =>
    intro n ds h
    have hd : (Nat.digitChar (n % 10)).toNat = 48 + n % 10 :=
      digitChar_toNat (n % 10) (Nat.mod_lt _ (by decide))
    have hstep : ∀ acc, parseDigits (Nat.digitChar (n % 10) :: ds) acc
        = parseDigits ds (acc * 10 + n % 10) := by
      intro acc
      have h1 : 48 ≤ (Nat.digitChar (n % 10)).toNat ∧ (Nat.digitChar (n % 10)).toNat ≤ 57 := by
        rw [hd]; omega
      simp only [parseDigits, h1, and_self, if_true]
      rw [hd]
      congr 1
      omega
    simp only [Nat.toDigitsCore]
    by_cases h0 : n / 10 = 0
    · simp only [h0, if_true]
      rw [hstep 0]
      congr 1
      omega
    · simp only [h0, if_false]
      rw [ih (n / 10) _ (by omega), hstep (n / 10)]
      congr 1
      omega

theorem ParseUint_Sprint (n : Nat) (h : n < uintSize) : ParseUint (Sprint n) = some n := by
  have hp : parseDigits (Nat.toDigits 10 n) 0 = some n := by
    have := parseDigits_toDigitsCore (n + 1) n [] (Nat.lt_succ_self n)
    simpa [Nat.toDigits, parseDigits] using this
  unfold ParseUint Sprint
  cases hds : Nat.toDigits 10 n with
  | nil => rw [hds] at hp; simp [parseDigits] at hp; subst hp; simp [Nat.toDigits, Nat.toDigitsCore] at hds
  | cons c cs =>
    simp only
    rw [← hds, hp]
    simp [h]



/-! ## Registration facts -/

theorem insertRow_ok (w w1 : World) (now : Time) (user u : User)
    (h : insertRow w now user = (w1, .ok u)) :
    (w.users.any (fun x => x.Email == user.Email)) = false ∧
    u = { user with ID := w.nextID % uintSize, CreatedAt := now, UpdatedAt := now } ∧
    w1 = { w with users := w.users ++ [u], nextID := w.nextID + 1 } := by
  unfold insertRow at h
  cases hany : w.users.any (fun x => x.Email == user.Email) with
  | true => simp [hany] at h
  | false =>
    simp only [hany, Bool.false_eq_true, if_false] at h
    cases h
    exact ⟨rfl, rfl, rfl⟩

/-- A successful `Register` hashed the password and inserted a row for an email no
stored row had. -/
theorem service.Register_ok (s : service) (bc : Bcrypt) (env : Env) (w w1 : World)
    (email password : String) (u : User)
    (h : s.Register bc env w email password = (w1, .ok u)) :
    ∃ hash users nextID,
      bc.GenerateFromPassword password env.salt = .ok hash ∧
      (users.any (fun x => x.Email == email)) = false ∧
      u = { ID := nextID % uintSize, Email := email, PasswordHash := hash,
            IsVerified := false, CreatedAt := env.now, UpdatedAt := env.now } ∧
      w1.users = users ++ [u] ∧
      w1.ledger = (commitRacing w env.now env.racing).ledger := by
  unfold service.Register at h
  cases hg : GetUserByEmail env w email with
  | ok x => simp [hg] at h
  | error x =>
    simp only [hg] at h
    cases hh : bc.GenerateFromPassword password env.salt with
    | error y => simp [hh] at h
    | ok hash =>
      simp only [hh] at h
      rcases hc : CreateUser env (commitRacing w env.now env.racing)
        { ID := 0, Email := email, PasswordHash := hash, IsVerified := false,
          CreatedAt := zeroTime, UpdatedAt := zeroTime } with ⟨w2, res⟩
      rw [hc] at h
      cases res with
      | error y => simp at h
      | ok created =>
        simp at h
        obtain ⟨hw, hu⟩ := h
        subst hw; subst hu
        unfold CreateUser at hc
        cases hf : env.insertFault with
        | some f => simp [hf] at hc
        | none =>
          simp only [hf] at hc
          obtain ⟨hany, hu, hw2⟩ := insertRow_ok _ _ _ _ _ hc
          refine ⟨hash, (commitRacing w env.now env.racing).users,
            (commitRacing w env.now env.racing).nextID, rfl, hany, hu, ?_, ?_⟩
          · rw [hw2]
          · rw [hw2]

theorem filter_email_of_any_false (users : List User) (email : String)
    (h : (users.any (fun x => x.Email == email)) = false) :
    users.filter (fun x => x.Email == email) = [] := by
  induction users with
  | nil => rfl
  | cons x rest ih =>
    simp only [List.any_cons, Bool.or_eq_false_iff] at h
    simp only [List.filter_cons, h.1, Bool.false_eq_true, if_false]
    exact ih h.2

theorem GetUserByEmail_inserted (env : Env) (w : World) (users : List User) (u : User)
    (hfault : env.lookupFault = none)
    (hany : (users.any (fun x => x.Email == u.Email)) = false)
    (hw : w.users = users ++ [u]) :
    GetUserByEmail env w u.Email = .ok u := by
  unfold GetUserByEmail
  rw [hfault, hw]
  simp only [List.filter_append, filter_email_of_any_false users u.Email hany, List.nil_append]
  simp [List.filter_cons, firstByID]

theorem commitRacing_ledger (w : World) (now : Time) (rows : List (String × String)) :
    (commitRacing w now rows).ledger = w.ledger := by
  induction rows generalizing w with
  | nil => rfl
  | cons row rest ih =>
    obtain ⟨email, hash⟩ := row
    simp only [commitRacing]
    rw [ih]
    unfold insertRow
    split <;> rfl



/-! ## Facts about interleaved Refresh calls -/

/-- Cutting `Refresh` at its ledger commands does not change it: a call run alone
through its three steps returns what `service.Refresh` returns. -/
theorem service.refreshSteps_eq_Refresh (s : service) (jwt : JWT) (env : Env) (w : World)
    (R : String) :
    s.refreshSteps jwt env w R
      = ((s.Refresh jwt env w R).1,
         .returned (s.Refresh jwt env w R).2.1 (s.Refresh jwt env w R).2.2.1
           (s.Refresh jwt env w R).2.2.2) := by
  unfold service.refreshSteps service.Refresh
  simp only [service.refreshStep]
  cases hv : s.validateToken jwt env.now R with
  | error e => simp [service.refreshStep]
  | ok claims =>
    simp only
    cases hg : GetRefreshTokenUserID env w claims.ID with
    | error e => simp [service.refreshStep]
    | ok userID =>
      simp only
      cases hsub : Sprint userID != claims.Subject with
      | true => simp [service.refreshStep]
      | false =>
        simp only [Bool.false_eq_true, if_false, service.refreshStep]
        rcases hr : RevokeRefreshToken env w claims.ID with ⟨w1, oe⟩
        cases oe with
        | some e => simp [service.refreshStep]
        | none =>
          simp only [service.refreshStep]
          cases ha : s.createAccessToken jwt env (userWithID userID) with
          | error e => simp
          | ok a =>
            simp only
            rcases hc : s.createRefreshToken jwt env w1 (userWithID userID) with ⟨w2, res⟩
            cases res <;> simp



theorem service.refreshStep_returned (s : service) (jwt : JWT) (env : Env) (w : World)
    (x y : String) (e : Option Error) :
    s.refreshStep jwt env w (.returned x y e) = (w, .returned x y e) := rfl

/-- A call that has returned keeps its result whatever the other call does. -/
theorem service.interleave_a_returned (s : service) (jwt : JWT) (envA envB : Env)
    (sched : List Bool) :
    ∀ (st : Race) (x y : String) (e : Option Error), st.a = .returned x y e →
      (s.interleave jwt envA envB sched st).a = .returned x y e := by
  induction sched with
  | nil => intro st x y e h; exact h
  | cons b rest ih =>
    intro st x y e h
    cases b with
    | true =>
      simp only [service.interleave]
      apply ih
      simp only [h, service.refreshStep_returned]
    | false =>
      simp only [service.interleave]
      apply ih
      exact h

/-- The step after the delete (mint and `SET` under `env.uuid`) returns, and leaves
every other key of the ledger as it was. -/
theorem service.refreshStep_revoked (s : service) (jwt : JWT) (env : Env) (w : World)
    (userID : Nat) (k : String) (hk : env.uuid ≠ k) :
    (∃ x y e, (s.refreshStep jwt env w (.revoked userID)).2 = .returned x y e) ∧
    (s.refreshStep jwt env w (.revoked userID)).1.ledger.get k = w.ledger.get k := by
  simp only [service.refreshStep]
  cases ha : s.createAccessToken jwt env (userWithID userID) with
  | error e => exact ⟨⟨_, _, _, rfl⟩, rfl⟩
  | ok a =>
    simp only [service.createRefreshToken]
    cases hs : jwt.SignedString .HS256 (refreshClaims s env (userWithID userID) env.uuid)
        s.jwtSecret with
    | error e => exact ⟨⟨_, _, _, rfl⟩, rfl⟩
    | ok t =>
      simp only [StoreRefreshToken]
      cases hf : env.setFault with
      | none =>
        refine ⟨⟨_, _, _, rfl⟩, ?_⟩
        exact Ledger.get_set_ne _ _ _ _ _ (fun h => hk h.symm)
      | some f =>
        cases hap : f.applied with
        | false => simp [hap]
        | true =>
          simp only [hap, if_true]
          refine ⟨⟨_, _, _, rfl⟩, ?_⟩
          exact Ledger.get_set_ne _ _ _ _ _ (fun h => hk h.symm)

/-- A call whose first step finds the token's identifier absent returns
`ErrRefreshTokenRevoked` at once. -/
theorem service.refreshStep_start_absent (s : service) (jwt : JWT) (env : Env) (w : World)
    (R : String) (claims : RegisteredClaims)
    (hv : s.validateToken jwt env.now R = .ok claims) (h : w.ledger.get claims.ID = none) :
    s.refreshStep jwt env w (.start R)
      = (w, .returned "" "" (some .ErrRefreshTokenRevoked)) := by
  obtain ⟨e, he⟩ := GetRefreshTokenUserID_absent env w claims.ID h
  simp only [service.refreshStep, hv, he]

/-- Once call `a` has deleted the identifier, call `b`, if it has not looked it up yet,
can only be revoked. -/
theorem service.interleave_after_delete (s : service) (jwt : JWT) (envA envB : Env)
    (R : String) (claims : RegisteredClaims)
    (hvB : s.validateToken jwt envB.now R = .ok claims)
    (hfreshA : envA.uuid ≠ claims.ID) (sched : List Bool) :
    ∀ st : Race, st.world.ledger.get claims.ID = none →
      ((∃ userID, st.a = .revoked userID) ∨ (∃ x y e, st.a = .returned x y e)) →
      (st.b = .start R ∨ st.b = .returned "" "" (some .ErrRefreshTokenRevoked)) →
      ((false ∈ sched ∨ st.b = .returned "" "" (some .ErrRefreshTokenRevoked)) →
        (s.interleave jwt envA envB sched st).b
          = .returned "" "" (some .ErrRefreshTokenRevoked)) ∧
      (s.interleave jwt envA envB sched st).b.succeeded = false := by
  induction sched with
  | nil =>
    intro st _ _ hb
    refine ⟨fun h => ?_, ?_⟩
    · rcases h with h | h
      · cases h
      · exact h
    · rcases hb with hb | hb <;> simp [service.interleave, hb, RefreshPC.succeeded]
  | cons b rest ih =>
    intro st hled ha hb
    cases b with
    | true =>
      simp only [service.interleave]
      have hstep : (s.refreshStep jwt envA st.world st.a).1.ledger.get claims.ID = none ∧
          ((∃ userID, (s.refreshStep jwt envA st.world st.a).2 = .revoked userID) ∨
            (∃ x y e, (s.refreshStep jwt envA st.world st.a).2 = .returned x y e)) := by
        rcases ha with ⟨userID, ha⟩ | ⟨x, y, e, ha⟩
        · rw [ha]
          obtain ⟨hret, hget⟩ := s.refreshStep_revoked jwt envA st.world userID claims.ID hfreshA
          exact ⟨hget.trans hled, Or.inr hret⟩
        · rw [ha, service.refreshStep_returned]
          exact ⟨hled, Or.inr ⟨x, y, e, rfl⟩⟩
      obtain ⟨h1, h2⟩ := ih ⟨(s.refreshStep jwt envA st.world st.a).1,
        (s.refreshStep jwt envA st.world st.a).2, st.b⟩ hstep.1 hstep.2 hb
      refine ⟨fun h => h1 ?_, h2⟩
      rcases h with h | h
      · simp only [List.mem_cons, Bool.false_eq_true, false_or] at h
        exact Or.inl h
      · exact Or.inr h
    | false =>
      simp only [service.interleave]
      have hstep : s.refreshStep jwt envB st.world st.b
          = (st.world, .returned "" "" (some .ErrRefreshTokenRevoked)) := by
        rcases hb with hb | hb
        · rw [hb]; exact s.refreshStep_start_absent jwt envB st.world R claims hvB hled
        · rw [hb, service.refreshStep_returned]
      rw [hstep]
      obtain ⟨h1, h2⟩ := ih ⟨st.world, st.a, .returned "" "" (some .ErrRefreshTokenRevoked)⟩
        hled ha (Or.inr rfl)
      exact ⟨fun _ => h1 (Or.inr rfl), h2⟩

/-- Where call `a` stands after its first two steps, taken before call `b` starts:
either it has returned a failure, or it has deleted the token's identifier. -/
theorem service.refreshStep_twice (s : service) (jwt : JWT) (env : Env) (w : World)
    (R : String) (claims : RegisteredClaims)
    (hv : s.validateToken jwt env.now R = .ok claims) :
    (∃ e, (s.refreshStep jwt env (s.refreshStep jwt env w (.start R)).1
        (s.refreshStep jwt env w (.start R)).2).2 = .returned "" "" (some e)) ∨
    ((∃ userID, (s.refreshStep jwt env (s.refreshStep jwt env w (.start R)).1
        (s.refreshStep jwt env w (.start R)).2).2 = .revoked userID) ∧
      (s.refreshStep jwt env (s.refreshStep jwt env w (.start R)).1
        (s.refreshStep jwt env w (.start R)).2).1.ledger.get claims.ID = none) := by
  simp only [service.refreshStep, hv]
  cases hg : GetRefreshTokenUserID env w claims.ID with
  | error e => exact Or.inl ⟨_, rfl⟩
  | ok userID =>
    simp only
    cases hsub : Sprint userID != claims.Subject with
    | true => exact Or.inl ⟨_, rfl⟩
    | false =>
      simp only [Bool.false_eq_true, if_false, service.refreshStep, RevokeRefreshToken]
      cases hf : env.delFault with
      | some f => exact Or.inl ⟨_, rfl⟩
      | none => exact Or.inr ⟨⟨userID, rfl⟩, Ledger.get_del_self _ _⟩



/-- If call `a` takes its lookup and its delete before call `b` takes any step, then the
two calls do not both succeed, and if `a` succeeds then `b`, once it has run, has failed
with `ErrRefreshTokenRevoked`. -/
theorem service.interleave_delete_first (s : service) (jwt : JWT) (envA envB : Env)
    (w : World) (R : String) (claims : RegisteredClaims)
    (hvA : s.validateToken jwt envA.now R = .ok claims)
    (hvB : s.validateToken jwt envB.now R = .ok claims)
    (hfreshA : envA.uuid ≠ claims.ID) (rest : List Bool) :
    ¬ ((s.interleave jwt envA envB (true :: true :: rest) ⟨w, .start R, .start R⟩).a.succeeded
          = true ∧
       (s.interleave jwt envA envB (true :: true :: rest) ⟨w, .start R, .start R⟩).b.succeeded
          = true) ∧
    ((s.interleave jwt envA envB (true :: true :: rest) ⟨w, .start R, .start R⟩).a.succeeded
        = true → false ∈ rest →
      (s.interleave jwt envA envB (true :: true :: rest) ⟨w, .start R, .start R⟩).b
        = .returned "" "" (some .ErrRefreshTokenRevoked)) := by
  simp only [service.interleave]
  rcases s.refreshStep_twice jwt envA w R claims hvA with ⟨e, he⟩ | ⟨⟨userID, hu⟩, hled⟩
  · have hfin := s.interleave_a_returned jwt envA envB rest
      ⟨(s.refreshStep jwt envA (s.refreshStep jwt envA w (.start R)).1
          (s.refreshStep jwt envA w (.start R)).2).1,
        (s.refreshStep jwt envA (s.refreshStep jwt envA w (.start R)).1
          (s.refreshStep jwt envA w (.start R)).2).2, .start R⟩ "" "" (some e) he
    rw [hfin]
    simp [RefreshPC.succeeded]
  · obtain ⟨h1, h2⟩ := s.interleave_after_delete jwt envA envB R claims hvB hfreshA rest
      ⟨(s.refreshStep jwt envA (s.refreshStep jwt envA w (.start R)).1
          (s.refreshStep jwt envA w (.start R)).2).1,
        (s.refreshStep jwt envA (s.refreshStep jwt envA w (.start R)).1
          (s.refreshStep jwt envA w (.start R)).2).2, .start R⟩
      hled (Or.inl ⟨userID, hu⟩) (Or.inl rfl)
    refine ⟨?_, fun _ hmem => h1 (Or.inl hmem)⟩
    rw [h2]
    simp

/-- Exchanging the roles of the two calls exchanges their results. -/
theorem service.interleave_swap (s : service) (jwt : JWT) (envA envB : Env)
    (sched : List Bool) :
    ∀ (w : World) (a b : RefreshPC),
      (s.interleave jwt envA envB sched ⟨w, a, b⟩).a
        = (s.interleave jwt envB envA (sched.map not) ⟨w, b, a⟩).b ∧
      (s.interleave jwt envA envB sched ⟨w, a, b⟩).b
        = (s.interleave jwt envB envA (sched.map not) ⟨w, b, a⟩).a ∧
      (s.interleave jwt envA envB sched ⟨w, a, b⟩).world
        = (s.interleave jwt envB envA (sched.map not) ⟨w, b, a⟩).world := by
  induction sched with
  | nil => intro w a b; exact ⟨rfl, rfl, rfl⟩
  | cons x rest ih =>
    intro w a b
    cases x with
    | true => simp only [service.interleave, List.map_cons, Bool.not_true]; exact ih _ _ _
    | false => simp only [service.interleave, List.map_cons, Bool.not_false]; exact ih _ _ _

/-- With no store or signing failure, a call that has looked the identifier up goes on to
delete, mint, store and return successfully, whatever the stores hold by then. -/
theorem service.refreshStep_on_track (s : service) (jwt : JWT) (env : Env)
    (claims : RegisteredClaims) (userID : Nat) (a r : String)
    (hdel : env.delFault = none) (hset : env.setFault = none)
    (hA : jwt.SignedString .HS256 (accessClaims s env (userWithID userID)) s.jwtSecret = .ok a)
    (hR : jwt.SignedString .HS256 (refreshClaims s env (userWithID userID) env.uuid)
      s.jwtSecret = .ok r)
    (w : World) (pc : RefreshPC)
    (hpc : pc = .lookedUp claims userID ∨ pc = .revoked userID ∨ pc = .returned a r none) :
    ((s.refreshStep jwt env w pc).2 = .lookedUp claims userID ∨
      (s.refreshStep jwt env w pc).2 = .revoked userID ∨
      (s.refreshStep jwt env w pc).2 = .returned a r none) ∧
    (s.refreshStep jwt env w pc).2.stepsLeft = pc.stepsLeft - 1 := by
  rcases hpc with h | h | h
  · subst h
    simp [service.refreshStep, RevokeRefreshToken, hdel, RefreshPC.stepsLeft]
  · subst h
    simp [service.refreshStep, service.createAccessToken, hA, service.createRefreshToken, hR,
      StoreRefreshToken, hset, RefreshPC.stepsLeft]
  · subst h
    simp [service.refreshStep, RefreshPC.stepsLeft]

theorem service.interleave_on_track (s : service) (jwt : JWT) (envA envB : Env)
    (claims : RegisteredClaims) (userID : Nat) (aA rA aB rB : String)
    (hdelA : envA.delFault = none) (hsetA : envA.setFault = none)
    (hAA : jwt.SignedString .HS256 (accessClaims s envA (userWithID userID)) s.jwtSecret
      = .ok aA)
    (hRA : jwt.SignedString .HS256 (refreshClaims s envA (userWithID userID) envA.uuid)
      s.jwtSecret = .ok rA)
    (hdelB : envB.delFault = none) (hsetB : envB.setFault = none)
    (hAB : jwt.SignedString .HS256 (accessClaims s envB (userWithID userID)) s.jwtSecret
      = .ok aB)
    (hRB : jwt.SignedString .HS256 (refreshClaims s envB (userWithID userID) envB.uuid)
      s.jwtSecret = .ok rB)
    (sched : List Bool) :
    ∀ st : Race,
      (st.a = .lookedUp claims userID ∨ st.a = .revoked userID ∨ st.a = .returned aA rA none) →
      (st.b = .lookedUp claims userID ∨ st.b = .revoked userID ∨ st.b = .returned aB rB none) →
      st.a.stepsLeft ≤ sched.count true → st.b.stepsLeft ≤ sched.count false →
      (s.interleave jwt envA envB sched st).a = .returned aA rA none ∧
      (s.interleave jwt envA envB sched st).b = .returned aB rB none := by
  induction sched with
  | nil =>
    intro st ha hb hna hnb
    simp only [List.count_nil, Nat.le_zero] at hna hnb
    simp only [service.interleave]
    constructor
    · rcases ha with h | h | h
      · rw [h] at hna; simp [RefreshPC.stepsLeft] at hna
      · rw [h] at hna; simp [RefreshPC.stepsLeft] at hna
      · exact h
    · rcases hb with h | h | h
      · rw [h] at hnb; simp [RefreshPC.stepsLeft] at hnb
      · rw [h] at hnb; simp [RefreshPC.stepsLeft] at hnb
      · exact h
  | cons x rest ih =>
    intro st ha hb hna hnb
    cases x with
    | true =>
      simp only [service.interleave]
      obtain ⟨ht, hl⟩ := s.refreshStep_on_track jwt envA claims userID aA rA hdelA hsetA hAA hRA
        st.world st.a ha
      apply ih ⟨(s.refreshStep jwt envA st.world st.a).1,
        (s.refreshStep jwt envA st.world st.a).2, st.b⟩ ht hb
      · simp only [hl]
        simp only [List.count_cons_self] at hna
        omega
      · simpa [List.count_cons] using hnb
    | false =>
      simp only [service.interleave]
      obtain ⟨ht, hl⟩ := s.refreshStep_on_track jwt envB claims userID aB rB hdelB hsetB hAB hRB
        st.world st.b hb
      apply ih ⟨(s.refreshStep jwt envB st.world st.b).1, st.a,
        (s.refreshStep jwt envB st.world st.b).2⟩ ha ht
      · simpa [List.count_cons] using hna
      · simp only [hl]
        simp only [List.count_cons_self] at hnb
        omega

theorem service.refreshStep_start_found (s : service) (jwt : JWT) (env : Env) (w : World)
    (R : String) (claims : RegisteredClaims) (userID : Nat)
    (hv : s.validateToken jwt env.now R = .ok claims)
    (hg : GetRefreshTokenUserID env w claims.ID = .ok userID)
    (hsub : Sprint userID = claims.Subject) :
    s.refreshStep jwt env w (.start R) = (w, .lookedUp claims userID) := by
  simp [service.refreshStep, hv, hg, hsub]



/-! ## C1: single-use rotation -/

/-- C1 (counterexample): the refresh token `"1.r1"` is refreshed successfully at
instant 0 under the fresh identifier `"r2"`; replayed eight days later, after its
seven-day expiry, the same token is rejected with `ErrTokenInvalid`, not with
`ErrRefreshTokenRevoked`. -/
theorem C1_replay_after_expiry_is_invalid :
    demoService.Refresh demoJWT (demoEnv 0 "r2") demoWorld "1.r1"
      = ({ demoWorld with
            ledger := [{ key := "r2", value := "1", ttl := demoService.refreshTokenTTL }] },
          "1.", "1.r2", none) ∧
    demoService.validateToken demoJWT 0 "1.r1" = .ok (demoRefreshClaims "r1") ∧
    "r2" ≠ (demoRefreshClaims "r1").ID ∧
    demoService.Refresh demoJWT (demoEnv (8 * 24 * 60 * Minute) "r3")
        { demoWorld with
            ledger := [{ key := "r2", value := "1", ttl := demoService.refreshTokenTTL }] }
        "1.r1"
      = ({ demoWorld with
            ledger := [{ key := "r2", value := "1", ttl := demoService.refreshTokenTTL }] },
          "", "", some .ErrTokenInvalid) ∧
    Error.ErrTokenInvalid ≠ Error.ErrRefreshTokenRevoked := by
  refine ⟨by decide, by decide, by decide, by decide, by decide⟩

/-- C1 (amended): if `Refresh(R)` succeeds and the identifier it generated differs from
R's own, then any later `Refresh(R)` on the resulting stores fails, issues no tokens and
leaves the stores unchanged: with `ErrRefreshTokenRevoked` when R still passes
verification at the time of the later call, with `ErrTokenInvalid` when it no longer
does. -/
theorem C1_replay_fails (s : service) (jwt : JWT) (env1 env2 : Env) (w w1 : World)
    (R a r : String)
    (hfirst : s.Refresh jwt env1 w R = (w1, a, r, none))
    (hfresh : ∀ claims, s.validateToken jwt env1.now R = .ok claims → env1.uuid ≠ claims.ID) :
    (∀ claims, s.validateToken jwt env2.now R = .ok claims →
        s.Refresh jwt env2 w1 R = (w1, "", "", some .ErrRefreshTokenRevoked)) ∧
    (∀ e, s.validateToken jwt env2.now R = .error e →
        s.Refresh jwt env2 w1 R = (w1, "", "", some .ErrTokenInvalid)) := by
  obtain ⟨claims, userID, hv, _, _, _, _, _, _, hw1⟩ := s.Refresh_ok jwt env1 w w1 R a r hfirst
  have hne : claims.ID ≠ env1.uuid := fun h => hfresh claims hv h.symm
  constructor
  · intro claims2 hv2
    have hc : claims = claims2 := s.validateToken_claims_eq jwt _ _ R _ _ hv hv2
    subst hc
    apply s.Refresh_absent jwt env2 w1 R claims hv2
    rw [hw1]
    show ((w.ledger.del claims.ID).set env1.uuid (Sprint userID) s.refreshTokenTTL).get claims.ID
      = none
    rw [Ledger.get_set_ne _ _ _ _ _ hne, Ledger.get_del_self]
  · intro e he
    exact s.Refresh_invalid jwt env2 w1 R e he

/-- C1 (witness): the amended statement applied to the demo token, replayed one second
after its successful refresh. -/
theorem C1_replay_fails_witness :
    demoService.Refresh demoJWT (demoEnv Second "r3")
        { demoWorld with
            ledger := [{ key := "r2", value := "1", ttl := demoService.refreshTokenTTL }] }
        "1.r1"
      = ({ demoWorld with
            ledger := [{ key := "r2", value := "1", ttl := demoService.refreshTokenTTL }] },
          "", "", some .ErrRefreshTokenRevoked) :=
  (C1_replay_fails demoService demoJWT (demoEnv 0 "r2") (demoEnv Second "r3") demoWorld _
      "1.r1" "1." "1.r2" (by decide)
      (fun claims h => by
        have h0 : demoService.validateToken demoJWT 0 "1.r1" = .ok (demoRefreshClaims "r1") := by
          decide
        have hc : claims = demoRefreshClaims "r1" := by
          have h1 : demoService.validateToken demoJWT 0 "1.r1" = .ok claims := h
          rw [h0] at h1; cases h1; rfl
        subst hc; decide)).1
    (demoRefreshClaims "r1") (by decide)



/-! ## C2: two concurrent Refresh calls on the same token -/

/-- C2 (counterexample): two `Refresh` calls present the demo token `"1.r1"` and their
ledger commands interleave as GET(a), GET(b), DEL(a), DEL(b), SET(a), SET(b). Both
look-ups see the identifier, both deletes return no error, and both calls succeed: call
`a` is issued `"1.r2"`, call `b` is issued `"1.r3"`, and the ledger ends up holding both
new identifiers. -/
theorem C2_both_concurrent_refreshes_succeed :
    demoService.validateToken demoJWT 0 "1.r1" = .ok (demoRefreshClaims "r1") ∧
    demoService.interleave demoJWT (demoEnv 0 "r2") (demoEnv 0 "r3")
        [true, false, true, false, true, false] ⟨demoWorld, .start "1.r1", .start "1.r1"⟩
      = ⟨{ demoWorld with
            ledger := [{ key := "r3", value := "1", ttl := demoService.refreshTokenTTL },
                       { key := "r2", value := "1", ttl := demoService.refreshTokenTTL }] },
          .returned "1." "1.r2" none, .returned "1." "1.r3" none⟩ := by
  refine ⟨by decide, by decide⟩

/-- C2 (amended): for two concurrent `Refresh` calls `a` and `b` presenting the same
refresh token, valid at both calls, each generating an identifier different from the
token's: (1) under every schedule in which `a` performs its ledger get and delete before
`b` performs its get, the two calls do not both succeed, and if `a` succeeds then `b`,
once it has run, has failed with `ErrRefreshTokenRevoked`; (2) the same with the roles
exchanged; (3) under every schedule in which both gets come first and every call then
takes its remaining two steps, if the look-up finds the matching user id and no store or
signing failure occurs, both calls succeed and each is issued a pair of its own. -/
theorem C2_concurrent_refresh (s : service) (jwt : JWT) (envA envB : Env) (w : World)
    (R : String) (claims : RegisteredClaims)
    (hvA : s.validateToken jwt envA.now R = .ok claims)
    (hvB : s.validateToken jwt envB.now R = .ok claims)
    (hfreshA : envA.uuid ≠ claims.ID) (hfreshB : envB.uuid ≠ claims.ID) :
    (∀ rest : List Bool,
      ¬ ((s.interleave jwt envA envB (true :: true :: rest)
            ⟨w, .start R, .start R⟩).a.succeeded = true ∧
         (s.interleave jwt envA envB (true :: true :: rest)
            ⟨w, .start R, .start R⟩).b.succeeded = true) ∧
      ((s.interleave jwt envA envB (true :: true :: rest)
            ⟨w, .start R, .start R⟩).a.succeeded = true → false ∈ rest →
        (s.interleave jwt envA envB (true :: true :: rest) ⟨w, .start R, .start R⟩).b
          = .returned "" "" (some .ErrRefreshTokenRevoked))) ∧
    (∀ rest : List Bool,
      ¬ ((s.interleave jwt envA envB (false :: false :: rest)
            ⟨w, .start R, .start R⟩).a.succeeded = true ∧
         (s.interleave jwt envA envB (false :: false :: rest)
            ⟨w, .start R, .start R⟩).b.succeeded = true) ∧
      ((s.interleave jwt envA envB (false :: false :: rest)
            ⟨w, .start R, .start R⟩).b.succeeded = true → true ∈ rest →
        (s.interleave jwt envA envB (false :: false :: rest) ⟨w, .start R, .start R⟩).a
          = .returned "" "" (some .ErrRefreshTokenRevoked))) ∧
    (∀ (userID : Nat) (aA rA aB rB : String) (rest : List Bool),
      GetRefreshTokenUserID envA w claims.ID = .ok userID →
      GetRefreshTokenUserID envB w claims.ID = .ok userID →
      Sprint userID = claims.Subject →
      envA.delFault = none → envA.setFault = none →
      envB.delFault = none → envB.setFault = none →
      jwt.SignedString .HS256 (accessClaims s envA (userWithID userID)) s.jwtSecret = .ok aA →
      jwt.SignedString .HS256 (refreshClaims s envA (userWithID userID) envA.uuid) s.jwtSecret
        = .ok rA →
      jwt.SignedString .HS256 (accessClaims s envB (userWithID userID)) s.jwtSecret = .ok aB →
      jwt.SignedString .HS256 (refreshClaims s envB (userWithID userID) envB.uuid) s.jwtSecret
        = .ok rB →
      2 ≤ rest.count true → 2 ≤ rest.count false →
      ((s.interleave jwt envA envB (true :: false :: rest) ⟨w, .start R, .start R⟩).a
          = .returned aA rA none ∧
       (s.interleave jwt envA envB (true :: false :: rest) ⟨w, .start R, .start R⟩).b
          = .returned aB rB none) ∧
      ((s.interleave jwt envA envB (false :: true :: rest) ⟨w, .start R, .start R⟩).a
          = .returned aA rA none ∧
       (s.interleave jwt envA envB (false :: true :: rest) ⟨w, .start R, .start R⟩).b
          = .returned aB rB none)) := by
  refine ⟨fun rest => s.interleave_delete_first jwt envA envB w R claims hvA hvB hfreshA rest,
    ?_, ?_⟩
  · intro rest
    obtain ⟨ha, hb, _⟩ := s.interleave_swap jwt envA envB (false :: false :: rest) w
      (.start R) (.start R)
    rw [ha, hb]
    simp only [List.map_cons, Bool.not_false]
    obtain ⟨h1, h2⟩ := s.interleave_delete_first jwt envB envA w R claims hvB hvA hfreshB
      (rest.map not)
    refine ⟨fun h => h1 ⟨h.2, h.1⟩, fun hs hmem => h2 hs ?_⟩
    exact List.mem_map.mpr ⟨true, hmem, rfl⟩
  · intro userID aA rA aB rB rest hgA hgB hsub hdelA hsetA hdelB hsetB hAA hRA hAB hRB hnA hnB
    have hstartA := s.refreshStep_start_found jwt envA w R claims userID hvA hgA hsub
    have hstartB := s.refreshStep_start_found jwt envB w R claims userID hvB hgB hsub
    have hrun := s.interleave_on_track jwt envA envB claims userID aA rA aB rB hdelA hsetA
      hAA hRA hdelB hsetB hAB hRB rest ⟨w, .lookedUp claims userID, .lookedUp claims userID⟩
      (Or.inl rfl) (Or.inl rfl) hnA hnB
    constructor
    · simp only [service.interleave, hstartA, hstartB]
      exact hrun
    · simp only [service.interleave, hstartA, hstartB]
      exact hrun

/-- C2 (witness): on the demo token, with call `a` taking its get and delete first, call
`b` is rejected as revoked; with both gets first, both calls succeed. -/
theorem C2_concurrent_refresh_witness :
    (demoService.interleave demoJWT (demoEnv 0 "r2") (demoEnv 0 "r3")
        [true, true, false, true] ⟨demoWorld, .start "1.r1", .start "1.r1"⟩).b
      = .returned "" "" (some .ErrRefreshTokenRevoked) ∧
    (demoService.interleave demoJWT (demoEnv 0 "r2") (demoEnv 0 "r3")
        [true, false, false, true, true, false] ⟨demoWorld, .start "1.r1", .start "1.r1"⟩).b
      = .returned "1." "1.r3" none :=
  ⟨((C2_concurrent_refresh demoService demoJWT (demoEnv 0 "r2") (demoEnv 0 "r3") demoWorld
      "1.r1" (demoRefreshClaims "r1") (by decide) (by decide) (by decide) (by decide)).1
      [false, true]).2 (by decide) (by decide),
   ((C2_concurrent_refresh demoService demoJWT (demoEnv 0 "r2") (demoEnv 0 "r3") demoWorld
      "1.r1" (demoRefreshClaims "r1") (by decide) (by decide) (by decide) (by decide)).2.2
      1 "1." "1.r2" "1." "1.r3" [false, true, true, false]
      (by decide) (by decide) (by decide) (by decide) (by decide) (by decide) (by decide)
      (by decide) (by decide) (by decide) (by decide) (by decide) (by decide)).1.2⟩



/-! ## C3: a uniqueness violation at insert time -/

/-- C3 (counterexample): on empty stores, `Register("a@x.com", "password123")` whose
lookup finds nobody, while a concurrent request commits a row for the same email before
the insert, gets a uniqueness violation from the insert and returns the wrapped error
`could not create user: ...`, which is not `ErrEmailTaken`; the handler answers
500 "Failed to create user" rather than the 409 of the pre-check path. -/
theorem C3_unique_violation_is_generic_failure :
    GetUserByEmail { demoEnv 0 "" with racing := [("a@x.com", "bcrypt(other)")] } emptyWorld
        "a@x.com" = .error .recordNotFound ∧
    (CreateUser { demoEnv 0 "" with racing := [("a@x.com", "bcrypt(other)")] }
        (commitRacing emptyWorld 0 [("a@x.com", "bcrypt(other)")])
        { ID := 0, Email := "a@x.com", PasswordHash := "bcrypt(password123)",
          IsVerified := false, CreatedAt := zeroTime, UpdatedAt := zeroTime }).2
      = .error .uniqueViolation ∧
    (demoService.Register demoBcrypt
        { demoEnv 0 "" with racing := [("a@x.com", "bcrypt(other)")] } emptyWorld
        "a@x.com" "password123").2
      = .error (.wrapped "could not create user" .uniqueViolation) ∧
    Error.wrapped "could not create user" .uniqueViolation ≠ Error.ErrEmailTaken ∧
    (demoHandler.Register demoService demoBcrypt
        { demoEnv 0 "" with racing := [("a@x.com", "bcrypt(other)")] } emptyWorld
        { Authorization := "", cookies := [], json := some ("a@x.com", "password123") }).2
      = { status := StatusInternalServerError, body := .ErrorResponse "Failed to create user",
          cookies := [] } := by
  refine ⟨by decide, by decide, by decide, by decide, by decide⟩

/-- C3 (amended): if the pre-insert lookup by email reports no existing principal but the
insert then fails with a uniqueness violation on email, `Register` returns the generic
wrapped error `could not create user: <violation>` (not `ErrEmailTaken`), and the
handler answers 500 "Failed to create user". -/
theorem C3_unique_violation_wrapped (h : AuthHandler) (s : service) (bc : Bcrypt) (env : Env)
    (w w1 : World) (email password hashedPassword : String) (e : ExtError)
    (hlookup : GetUserByEmail env w email = .error e)
    (hhash : bc.GenerateFromPassword password env.salt = .ok hashedPassword)
    (hinsert : CreateUser env (commitRacing w env.now env.racing)
        { ID := 0, Email := email, PasswordHash := hashedPassword, IsVerified := false,
          CreatedAt := zeroTime, UpdatedAt := zeroTime } = (w1, .error .uniqueViolation)) :
    s.Register bc env w email password
      = (w1, .error (.wrapped "could not create user" .uniqueViolation)) ∧
    (s.Register bc env w email password).2 ≠ .error .ErrEmailTaken ∧
    (∀ c : Request, c.json = some (email, password) → email ≠ "" → password ≠ "" →
      h.Register s bc env w c
        = (w1, { status := StatusInternalServerError,
                 body := .ErrorResponse "Failed to create user", cookies := [] })) := by
  have hreg : s.Register bc env w email password
      = (w1, .error (.wrapped "could not create user" .uniqueViolation)) := by
    unfold service.Register
    rw [hlookup]
    simp only [hhash, hinsert]
  refine ⟨hreg, ?_, ?_⟩
  · rw [hreg]; simp
  · intro c hc hemail hpw
    unfold AuthHandler.Register
    rw [hc]
    simp only [hreg]
    simp [hemail, hpw]

/-- C3 (witness): the amended statement on the racing registration of the demo email. -/
theorem C3_unique_violation_wrapped_witness :
    demoService.Register demoBcrypt
        { demoEnv 0 "" with racing := [("a@x.com", "bcrypt(other)")] } emptyWorld
        "a@x.com" "password123"
      = (commitRacing emptyWorld 0 [("a@x.com", "bcrypt(other)")],
         .error (.wrapped "could not create user" .uniqueViolation)) :=
  (C3_unique_violation_wrapped demoHandler demoService demoBcrypt
    { demoEnv 0 "" with racing := [("a@x.com", "bcrypt(other)")] } emptyWorld _
    "a@x.com" "password123" "bcrypt(password123)" .recordNotFound
    (by decide) (by decide) (by decide)).1

/-! ## C4: the outward signal of a rejected session at refresh and at logout -/

/-- C4 (counterexample): presented with the same refresh token that fails verification,
the `Refresh` handler answers 401 "Invalid or expired refresh token" with no cookie, while
the `Logout` handler answers 500 "Failed to log out" and clears both cookies: the two
responses differ, although the service failed with `ErrTokenInvalid` in both. -/
theorem C4_logout_signal_differs_from_refresh :
    (demoService.Refresh demoJWT (demoEnv 0 "r2") demoWorld "garbage").2.2.2
      = some .ErrTokenInvalid ∧
    (demoService.Logout demoJWT (demoEnv 0 "r2") demoWorld "garbage").2
      = some .ErrTokenInvalid ∧
    (demoHandler.Refresh demoService demoJWT (demoEnv 0 "r2") demoWorld
        { Authorization := "", cookies := [("refresh_token", "garbage")], json := none }).2
      = { status := StatusUnauthorized,
          body := .ErrorResponse "Invalid or expired refresh token", cookies := [] } ∧
    (demoHandler.Logout demoService demoJWT (demoEnv 0 "r2") demoWorld
        { Authorization := "", cookies := [("refresh_token", "garbage")], json := none }).2
      = { status := StatusInternalServerError, body := .ErrorResponse "Failed to log out",
          cookies := clearedCookies } ∧
    (demoHandler.Logout demoService demoJWT (demoEnv 0 "r2") demoWorld
        { Authorization := "", cookies := [("refresh_token", "garbage")], json := none }).2
      ≠ (demoHandler.Refresh demoService demoJWT (demoEnv 0 "r2") demoWorld
        { Authorization := "", cookies := [("refresh_token", "garbage")], json := none }).2 := by
  refine ⟨by decide, by decide, by decide, by decide, by decide⟩

/-- C4 (amended): at the `Refresh` handler every service failure, `ErrTokenInvalid` and
`ErrRefreshTokenRevoked` alike, produces one and the same response, 401 "Invalid or
expired refresh token" with no cookie. At the `Logout` handler every service failure
produces 500 "Failed to log out" with both cookies cleared; `service.Logout` never fails
with `ErrRefreshTokenRevoked`, and a token that fails verification makes it fail with
`ErrTokenInvalid`. -/
theorem C4_session_rejection_signals (h : AuthHandler) (s : service) (jwt : JWT) (env : Env)
    (w : World) (c : Request) (refreshToken : String)
    (hcookie : c.Cookie "refresh_token" = some refreshToken) :
    (∀ e, (s.Refresh jwt env w refreshToken).2.2.2 = some e →
      (h.Refresh s jwt env w c).2
        = { status := StatusUnauthorized,
            body := .ErrorResponse "Invalid or expired refresh token", cookies := [] }) ∧
    (∀ e, (s.Logout jwt env w refreshToken).2 = some e →
      (h.Logout s jwt env w c).2
        = { status := StatusInternalServerError, body := .ErrorResponse "Failed to log out",
            cookies := clearedCookies }) ∧
    (s.Logout jwt env w refreshToken).2 ≠ some .ErrRefreshTokenRevoked ∧
    (∀ e, s.validateToken jwt env.now refreshToken = .error e →
      s.Logout jwt env w refreshToken = (w, some .ErrTokenInvalid)) := by
  refine ⟨?_, ?_, ?_, ?_⟩
  · intro e he
    unfold AuthHandler.Refresh
    rw [hcookie]
    rcases hres : s.Refresh jwt env w refreshToken with ⟨w1, a, r, oe⟩
    rw [hres] at he
    simp only at he
    subst he
    simp only [hres]
  · intro e he
    unfold AuthHandler.Logout
    rw [hcookie]
    rcases hres : s.Logout jwt env w refreshToken with ⟨w1, oe⟩
    rw [hres] at he
    simp only at he
    subst he
    simp only [hres]
  · unfold service.Logout
    cases hv : s.validateToken jwt env.now refreshToken with
    | error x => simp
    | ok claims =>
      simp only
      rcases hr : RevokeRefreshToken env w claims.ID with ⟨w1, oe⟩
      cases oe <;> simp
  · intro e he
    unfold service.Logout
    rw [he]

/-- C4 (witness): the amended statement on the demo stores with a token that fails
verification. -/
theorem C4_session_rejection_signals_witness :
    (demoHandler.Refresh demoService demoJWT (demoEnv 0 "r2") demoWorld
        { Authorization := "", cookies := [("refresh_token", "garbage")], json := none }).2
      = { status := StatusUnauthorized,
          body := .ErrorResponse "Invalid or expired refresh token", cookies := [] } ∧
    (demoHandler.Logout demoService demoJWT (demoEnv 0 "r2") demoWorld
        { Authorization := "", cookies := [("refresh_token", "garbage")], json := none }).2
      = { status := StatusInternalServerError, body := .ErrorResponse "Failed to log out",
          cookies := clearedCookies } :=
  ⟨(C4_session_rejection_signals demoHandler demoService demoJWT (demoEnv 0 "r2") demoWorld
      { Authorization := "", cookies := [("refresh_token", "garbage")], json := none }
      "garbage" (by decide)).1 .ErrTokenInvalid (by decide),
   (C4_session_rejection_signals demoHandler demoService demoJWT (demoEnv 0 "r2") demoWorld
      { Authorization := "", cookies := [("refresh_token", "garbage")], json := none }
      "garbage" (by decide)).2.1 .ErrTokenInvalid (by decide)⟩



/-! ## C5: login failures are indistinguishable at the boundary -/

theorem service.createRefreshToken_error_external (s : service) (jwt : JWT) (env : Env)
    (w w1 : World) (user : User) (e : Error)
    (h : s.createRefreshToken jwt env w user = (w1, .error e)) : ∃ x, e = .external x := by
  unfold service.createRefreshToken at h
  cases hs : jwt.SignedString .HS256 (refreshClaims s env user env.uuid) s.jwtSecret with
  | error x => simp [hs] at h; exact ⟨x, h.2.symm⟩
  | ok t =>
    simp only [hs] at h
    cases hst : StoreRefreshToken env w user.ID env.uuid s.refreshTokenTTL with
    | mk w2 oe =>
      rw [hst] at h
      cases oe with
      | some x => simp at h; exact ⟨x, h.2.symm⟩
      | none => simp at h

theorem service.createAccessToken_error_external (s : service) (jwt : JWT) (env : Env)
    (user : User) (e : Error) (h : s.createAccessToken jwt env user = .error e) :
    ∃ x, e = .external x := by
  unfold service.createAccessToken at h
  cases hs : jwt.SignedString .HS256 (accessClaims s env user) s.jwtSecret with
  | error x => simp [hs] at h; exact ⟨x, h.symm⟩
  | ok t => simp [hs] at h

/-- A `Login` that reports one of its two credential errors returned before minting
anything: empty tokens, stores untouched. -/
theorem service.Login_credential_error (s : service) (jwt : JWT) (bc : Bcrypt) (env : Env)
    (w : World) (email password : String) (e : Error)
    (he : e = .ErrUserNotFound ∨ e = .ErrInvalidPassword)
    (h : (s.Login jwt bc env w email password).2.2.2 = some e) :
    s.Login jwt bc env w email password = (w, "", "", some e) := by
  unfold service.Login at h ⊢
  cases hg : GetUserByEmail env w email with
  | error x =>
    simp only [hg] at h ⊢
    cases h; rfl
  | ok user =>
    simp only [hg] at h ⊢
    cases hc : bc.CompareHashAndPassword user.PasswordHash password with
    | false =>
      simp only [hc, Bool.false_eq_true, if_false] at h ⊢
      cases h; rfl
    | true =>
      simp only [hc, if_true] at h ⊢
      cases ha : s.createAccessToken jwt env user with
      | error x =>
        simp only [ha] at h
        obtain ⟨y, hy⟩ := s.createAccessToken_error_external jwt env user x ha
        subst hy
        cases h
        rcases he with he | he <;> cases he
      | ok a =>
        simp only [ha] at h
        cases hr : s.createRefreshToken jwt env w user with
        | mk w2 res =>
          rw [hr] at h
          cases res with
          | error x =>
            obtain ⟨y, hy⟩ := s.createRefreshToken_error_external jwt env w w2 user x hr
            subst hy
            simp at h
            subst h
            rcases he with he | he <;> cases he
          | ok r => simp at h

/-- C5: of any two `Login` requests whose JSON binds, one failing in the service with
`ErrUserNotFound` and one with `ErrInvalidPassword`, the handler's responses (status,
body, cookies) are identical (401, "Invalid credentials", no cookie); and in both cases
the service returns empty access and refresh tokens and leaves the stores, the ledger
included, as they were. -/
theorem C5_login_failures_indistinguishable (h : AuthHandler) (s : service) (jwt : JWT)
    (bc : Bcrypt) (env1 env2 : Env) (w1 w2 : World) (c1 c2 : Request)
    (email1 password1 email2 password2 : String)
    (hreq1 : c1.json = some (email1, password1))
    (hreq2 : c2.json = some (email2, password2))
    (hunknown : (s.Login jwt bc env1 w1 email1 password1).2.2.2 = some .ErrUserNotFound)
    (hwrong : (s.Login jwt bc env2 w2 email2 password2).2.2.2 = some .ErrInvalidPassword) :
    (h.Login s jwt bc env1 w1 c1).2 = (h.Login s jwt bc env2 w2 c2).2 ∧
    (h.Login s jwt bc env1 w1 c1).2
      = { status := StatusUnauthorized, body := .ErrorResponse "Invalid credentials",
          cookies := [] } ∧
    s.Login jwt bc env1 w1 email1 password1 = (w1, "", "", some .ErrUserNotFound) ∧
    s.Login jwt bc env2 w2 email2 password2 = (w2, "", "", some .ErrInvalidPassword) := by
  have h1 := s.Login_credential_error jwt bc env1 w1 email1 password1 _ (Or.inl rfl) hunknown
  have h2 := s.Login_credential_error jwt bc env2 w2 email2 password2 _ (Or.inr rfl) hwrong
  have r1 : (h.Login s jwt bc env1 w1 c1).2
      = { status := StatusUnauthorized, body := .ErrorResponse "Invalid credentials",
          cookies := [] } := by
    unfold AuthHandler.Login; rw [hreq1]; simp only [h1]
  have r2 : (h.Login s jwt bc env2 w2 c2).2
      = { status := StatusUnauthorized, body := .ErrorResponse "Invalid credentials",
          cookies := [] } := by
    unfold AuthHandler.Login; rw [hreq2]; simp only [h2]
  exact ⟨r1.trans r2.symm, r1, h1, h2⟩

/-- C5 (witness): an unknown email on empty stores, and a wrong password for the demo
user. -/
theorem C5_login_failures_indistinguishable_witness :
    (demoHandler.Login demoService demoJWT demoBcrypt (demoEnv 0 "r2") emptyWorld
        { Authorization := "", cookies := [], json := some ("b@x.com", "password123") }).2
      = (demoHandler.Login demoService demoJWT demoBcrypt (demoEnv 0 "r2") demoWorld
        { Authorization := "", cookies := [], json := some ("a@x.com", "wrong-password") }).2 ∧
    (demoHandler.Login demoService demoJWT demoBcrypt (demoEnv 0 "r2") emptyWorld
        { Authorization := "", cookies := [], json := some ("b@x.com", "password123") }).2
      = { status := StatusUnauthorized, body := .ErrorResponse "Invalid credentials",
          cookies := [] } ∧
    demoService.Login demoJWT demoBcrypt (demoEnv 0 "r2") emptyWorld "b@x.com" "password123"
      = (emptyWorld, "", "", some .ErrUserNotFound) ∧
    demoService.Login demoJWT demoBcrypt (demoEnv 0 "r2") demoWorld "a@x.com" "wrong-password"
      = (demoWorld, "", "", some .ErrInvalidPassword) :=
  C5_login_failures_indistinguishable demoHandler demoService demoJWT demoBcrypt
    (demoEnv 0 "r2") (demoEnv 0 "r2") emptyWorld demoWorld _ _
    "b@x.com" "password123" "a@x.com" "wrong-password" rfl rfl (by decide) (by decide)



/-! ## C6: Refresh issues nothing unless every earlier step succeeded -/

/-- C6: for every presented token and store state, (1) if the token fails verification,
`Refresh` returns `ErrTokenInvalid`, empty tokens, and leaves the stores unchanged;
(2) if the ledger lookup of its identifier fails, or returns a user id whose decimal
rendering differs from the signed subject, `Refresh` returns `ErrRefreshTokenRevoked`,
empty tokens, and leaves the stores unchanged; (3) if the ledger delete fails, `Refresh`
returns that error and empty tokens, and every entry of the resulting ledger was already
in it before the call (no new identifier is stored). -/
theorem C6_refresh_aborts_without_issuing (s : service) (jwt : JWT) (env : Env) (w : World)
    (R : String) :
    (∀ e, s.validateToken jwt env.now R = .error e →
        s.Refresh jwt env w R = (w, "", "", some .ErrTokenInvalid)) ∧
    (∀ claims, s.validateToken jwt env.now R = .ok claims →
        ((∃ e, GetRefreshTokenUserID env w claims.ID = .error e) ∨
         (∃ userID, GetRefreshTokenUserID env w claims.ID = .ok userID ∧
            Sprint userID ≠ claims.Subject)) →
        s.Refresh jwt env w R = (w, "", "", some .ErrRefreshTokenRevoked)) ∧
    (∀ claims userID w1 e, s.validateToken jwt env.now R = .ok claims →
        GetRefreshTokenUserID env w claims.ID = .ok userID →
        Sprint userID = claims.Subject →
        RevokeRefreshToken env w claims.ID = (w1, some e) →
        s.Refresh jwt env w R = (w1, "", "", some (.external e)) ∧
          (∀ entry ∈ w1.ledger, entry ∈ w.ledger) ∧ w1.users = w.users) := by
  refine ⟨fun e he => s.Refresh_invalid jwt env w R e he, ?_, ?_⟩
  · intro claims hv hcase
    rcases hcase with ⟨e, he⟩ | ⟨userID, hg, hne⟩
    · exact s.Refresh_lookup_error jwt env w R claims e hv he
    · exact s.Refresh_subject_mismatch jwt env w R claims userID hv hg hne
  · intro claims userID w1 e hv hg hsub hr
    obtain ⟨hsubset, husers, _⟩ := RevokeRefreshToken_subset env w w1 claims.ID (some e) hr
    exact ⟨s.Refresh_delete_error jwt env w w1 R claims userID e hv hg hsub hr, hsubset, husers⟩

/-- C6 (witness): a malformed token, a token whose identifier is not in the ledger, and a
valid token whose ledger delete fails, each on the demo stores. -/
theorem C6_refresh_aborts_without_issuing_witness :
    demoService.Refresh demoJWT (demoEnv 0 "r2") demoWorld "garbage"
      = (demoWorld, "", "", some .ErrTokenInvalid) ∧
    demoService.Refresh demoJWT (demoEnv 0 "r2") demoWorld "1.r3"
      = (demoWorld, "", "", some .ErrRefreshTokenRevoked) ∧
    demoService.Refresh demoJWT
        { demoEnv 0 "r2" with delFault := some { err := .unavailable, applied := false } }
        demoWorld "1.r1"
      = (demoWorld, "", "", some (.external .unavailable)) :=
  ⟨(C6_refresh_aborts_without_issuing demoService demoJWT (demoEnv 0 "r2") demoWorld
      "garbage").1 .ErrTokenInvalid (by decide),
   (C6_refresh_aborts_without_issuing demoService demoJWT (demoEnv 0 "r2") demoWorld
      "1.r3").2.1 (demoRefreshClaims "r3") (by decide) (Or.inl ⟨.redisNil, by decide⟩),
   ((C6_refresh_aborts_without_issuing demoService demoJWT
      { demoEnv 0 "r2" with delFault := some { err := .unavailable, applied := false } }
      demoWorld "1.r1").2.2 (demoRefreshClaims "r1") 1 demoWorld .unavailable
      (by decide) (by decide) (by decide) (by decide)).1⟩

/-! ## C7: postcondition of a successful Refresh -/

/-- C7: when `Refresh` succeeds on a token that verifies with subject `s` and identifier
`i`, the returned access token and refresh token are the HS256 signatures, under the
service secret, of claims whose subject is `s`; the refresh token's claims carry the
freshly generated identifier `j`; the ledger maps `j` to `s` with the service's refresh
TTL; and, `j` being new (different from `i`), `i` is no longer in the ledger. -/
theorem C7_refresh_postcondition (s : service) (jwt : JWT) (env : Env) (w w1 : World)
    (R a r : String) (claims : RegisteredClaims)
    (hvalid : s.validateToken jwt env.now R = .ok claims)
    (hok : s.Refresh jwt env w R = (w1, a, r, none))
    (hnew : env.uuid ≠ claims.ID) :
    (∃ ca cr : RegisteredClaims,
      jwt.SignedString .HS256 ca s.jwtSecret = .ok a ∧ ca.Subject = claims.Subject ∧
      jwt.SignedString .HS256 cr s.jwtSecret = .ok r ∧ cr.Subject = claims.Subject ∧
      cr.ID = env.uuid) ∧
    w1.ledger.entry env.uuid
      = some { key := env.uuid, value := claims.Subject, ttl := s.refreshTokenTTL } ∧
    w1.ledger.entry claims.ID = none := by
  obtain ⟨claims2, userID, hv, _, hsub, _, _, ha, hr, hw1⟩ := s.Refresh_ok jwt env w w1 R a r hok
  have hc : claims2 = claims := by rw [hv] at hvalid; cases hvalid; rfl
  subst hc
  refine ⟨⟨_, _, ha, hsub, hr, hsub, rfl⟩, ?_, ?_⟩
  · rw [hw1]
    show ((w.ledger.del claims2.ID).set env.uuid (Sprint userID) s.refreshTokenTTL).entry env.uuid
      = _
    rw [Ledger.entry_set_self, hsub]
  · rw [hw1]
    show ((w.ledger.del claims2.ID).set env.uuid (Sprint userID) s.refreshTokenTTL).entry
      claims2.ID = none
    rw [Ledger.entry_set_ne _ _ _ _ _ (fun h => hnew h.symm), Ledger.entry_del_self]

/-- C7 (witness): the refresh of the demo token `"1.r1"` under the new identifier `"r2"`. -/
theorem C7_refresh_postcondition_witness :
    (∃ ca cr : RegisteredClaims,
      demoJWT.SignedString .HS256 ca demoService.jwtSecret = .ok "1." ∧
      ca.Subject = (demoRefreshClaims "r1").Subject ∧
      demoJWT.SignedString .HS256 cr demoService.jwtSecret = .ok "1.r2" ∧
      cr.Subject = (demoRefreshClaims "r1").Subject ∧ cr.ID = (demoEnv 0 "r2").uuid) ∧
    Ledger.entry [{ key := "r2", value := "1", ttl := demoService.refreshTokenTTL }]
        (demoEnv 0 "r2").uuid
      = some { key := (demoEnv 0 "r2").uuid, value := (demoRefreshClaims "r1").Subject,
               ttl := demoService.refreshTokenTTL } ∧
    Ledger.entry [{ key := "r2", value := "1", ttl := demoService.refreshTokenTTL }]
        (demoRefreshClaims "r1").ID = none :=
  C7_refresh_postcondition demoService demoJWT (demoEnv 0 "r2") demoWorld
    { demoWorld with
        ledger := [{ key := "r2", value := "1", ttl := demoService.refreshTokenTTL }] }
    "1.r1" "1." "1.r2" (demoRefreshClaims "r1") (by decide) (by decide) (by decide)

/-! ## C8: logout, then refresh, then logout again -/

/-- C8: for every refresh token R that passes verification: after `Logout(R)` returns
success, `Refresh(R)` fails with `ErrRefreshTokenRevoked`, issuing nothing and leaving the
stores unchanged; and a second `Logout(R)`, its ledger delete being carried out, also
returns success (deleting the already-absent identifier is not an error) and leaves the
stores, the ledger included, unchanged. -/
theorem C8_logout_revokes_and_is_idempotent (s : service) (jwt : JWT) (env1 env2 env3 : Env)
    (w w1 : World) (R : String)
    (hlogout : s.Logout jwt env1 w R = (w1, none)) :
    (∀ claims, s.validateToken jwt env2.now R = .ok claims →
        s.Refresh jwt env2 w1 R = (w1, "", "", some .ErrRefreshTokenRevoked)) ∧
    (∀ claims, s.validateToken jwt env3.now R = .ok claims → env3.delFault = none →
        s.Logout jwt env3 w1 R = (w1, none)) := by
  obtain ⟨claims, hv, _, hw1⟩ := s.Logout_ok jwt env1 w w1 R hlogout
  constructor
  · intro claims2 hv2
    have hc : claims = claims2 := s.validateToken_claims_eq jwt _ _ R _ _ hv hv2
    subst hc
    apply s.Refresh_absent jwt env2 w1 R claims hv2
    rw [hw1]
    exact Ledger.get_del_self _ _
  · intro claims3 hv3 hdel
    have hc : claims = claims3 := s.validateToken_claims_eq jwt _ _ R _ _ hv hv3
    subst hc
    unfold service.Logout
    rw [hv3]
    simp only [RevokeRefreshToken, hdel]
    rw [hw1]
    show (({ users := w.users, nextID := w.nextID,
             ledger := (w.ledger.del claims.ID).del claims.ID } : World), (none : Option Error))
      = _
    rw [Ledger.del_del]

/-- C8 (witness): the statement on the demo token, one second after its logout. -/
theorem C8_logout_revokes_and_is_idempotent_witness :
    demoService.Refresh demoJWT (demoEnv Second "r2") { demoWorld with ledger := [] } "1.r1"
      = ({ demoWorld with ledger := [] }, "", "", some .ErrRefreshTokenRevoked) ∧
    demoService.Logout demoJWT (demoEnv Second "") { demoWorld with ledger := [] } "1.r1"
      = ({ demoWorld with ledger := [] }, none) :=
  ⟨(C8_logout_revokes_and_is_idempotent demoService demoJWT (demoEnv 0 "") (demoEnv Second "r2")
      (demoEnv Second "") demoWorld _ "1.r1" (by decide)).1 (demoRefreshClaims "r1") (by decide),
   (C8_logout_revokes_and_is_idempotent demoService demoJWT (demoEnv 0 "") (demoEnv Second "r2")
      (demoEnv Second "") demoWorld _ "1.r1" (by decide)).2 (demoRefreshClaims "r1") (by decide)
      (by decide)⟩



/-! ## C9: register, login, refresh -/

/-- C9: if `Register(email, password)` succeeds, creating principal `u`, then a
subsequent `Login` with the same email and password (stores reachable, bcrypt accepting
the password against the hash it produced, the JWT library signing the two claim sets as
`a` and `r`) succeeds and returns the non-empty pair `(a, r)`, whose claims both carry the
subject `u.ID` in decimal, and records the refresh identifier in the ledger mapped to
`u.ID` with the refresh TTL; and the pair is usable: a `Refresh` of `r`, while `r` is
unexpired (stores reachable, signing succeeds), succeeds and replaces the identifier. -/
theorem C9_register_login_refresh (s : service) (jwt : JWT) (bc : Bcrypt)
    (env1 env2 env3 : Env) (w w1 : World) (email password : String) (u : User)
    (a r a3 r3 : String)
    (hregister : s.Register bc env1 w email password = (w1, .ok u))
    (hbcrypt : ∀ hash, bc.GenerateFromPassword password env1.salt = .ok hash →
      bc.CompareHashAndPassword hash password = true)
    (hreach2 : env2.lookupFault = none ∧ env2.setFault = none)
    (hA : jwt.Signs (accessClaims s env2 u) s.jwtSecret a)
    (hR : jwt.Signs (refreshClaims s env2 u env2.uuid) s.jwtSecret r)
    (hreach3 : env3.getFault = none ∧ env3.delFault = none ∧ env3.setFault = none)
    (hA3 : jwt.SignedString .HS256 (accessClaims s env3 (userWithID u.ID)) s.jwtSecret = .ok a3)
    (hR3 : jwt.SignedString .HS256 (refreshClaims s env3 (userWithID u.ID) env3.uuid)
      s.jwtSecret = .ok r3)
    (hbefore : env3.now < NewNumericDate (env2.now + s.refreshTokenTTL)) :
    s.Login jwt bc env2 w1 email password
      = ({ w1 with ledger := w1.ledger.set env2.uuid (Sprint u.ID) s.refreshTokenTTL },
          a, r, none) ∧
    a ≠ "" ∧ r ≠ "" ∧
    jwt.parseUnverified a = some (.HS256, accessClaims s env2 u) ∧
    (accessClaims s env2 u).Subject = Sprint u.ID ∧
    jwt.parseUnverified r = some (.HS256, refreshClaims s env2 u env2.uuid) ∧
    (refreshClaims s env2 u env2.uuid).Subject = Sprint u.ID ∧
    (refreshClaims s env2 u env2.uuid).ID = env2.uuid ∧
    (w1.ledger.set env2.uuid (Sprint u.ID) s.refreshTokenTTL).entry env2.uuid
      = some { key := env2.uuid, value := Sprint u.ID, ttl := s.refreshTokenTTL } ∧
    s.Refresh jwt env3
        { w1 with ledger := w1.ledger.set env2.uuid (Sprint u.ID) s.refreshTokenTTL } r
      = ({ w1 with
            ledger :=
              ((w1.ledger.set env2.uuid (Sprint u.ID) s.refreshTokenTTL).del env2.uuid).set
                env3.uuid (Sprint u.ID) s.refreshTokenTTL },
          a3, r3, none) := by
  obtain ⟨hash, users, nextID, hhash, hany, hu, hw1, _⟩ :=
    s.Register_ok bc env1 w w1 email password u hregister
  have hemail : u.Email = email := by rw [hu]
  have hpw : u.PasswordHash = hash := by rw [hu]
  have hid : u.ID < uintSize := by
    rw [hu]; exact Nat.mod_lt _ (by decide)
  obtain ⟨hsA, hneA, hpA, _⟩ := hA
  obtain ⟨hsR, hneR, hpR, hvR⟩ := hR
  have hlookup : GetUserByEmail env2 w1 email = .ok u := by
    rw [← hemail]
    exact GetUserByEmail_inserted env2 w1 users u hreach2.1 (by rw [hemail]; exact hany) hw1
  have hlogin : s.Login jwt bc env2 w1 email password
      = ({ w1 with ledger := w1.ledger.set env2.uuid (Sprint u.ID) s.refreshTokenTTL },
          a, r, none) := by
    unfold service.Login
    rw [hlookup]
    simp only [hpw, hbcrypt hash hhash, if_true, service.createAccessToken, hsA,
      service.createRefreshToken, hsR, StoreRefreshToken, hreach2.2]
  refine ⟨hlogin, hneA, hneR, hpA, rfl, hpR, rfl, rfl, Ledger.entry_set_self _ _ _ _, ?_⟩
  have hvalid : s.validateToken jwt env3.now r = .ok (refreshClaims s env2 u env2.uuid) := by
    rw [service.validateToken_ok_iff]
    refine ⟨⟨.HS256, hpR, rfl, hvR⟩, ?_⟩
    simp [validateClaims, refreshClaims, hbefore]
  have hget : GetRefreshTokenUserID env3
      { w1 with ledger := w1.ledger.set env2.uuid (Sprint u.ID) s.refreshTokenTTL }
      (refreshClaims s env2 u env2.uuid).ID = .ok u.ID := by
    unfold GetRefreshTokenUserID
    rw [hreach3.1]
    show (match (w1.ledger.set env2.uuid (Sprint u.ID) s.refreshTokenTTL).get env2.uuid with
      | none => Except.error ExtError.redisNil
      | some val =>
        match ParseUint val with
        | none => Except.error ExtError.strconvErr
        | some userID => Except.ok userID) = _
    rw [Ledger.get_set_self]
    simp only [ParseUint_Sprint u.ID hid]
  unfold service.Refresh
  rw [hvalid]
  simp only [hget]
  have hsub : (Sprint u.ID != (refreshClaims s env2 u env2.uuid).Subject) = false := by
    simp [refreshClaims]
  simp only [hsub, Bool.false_eq_true, if_false, RevokeRefreshToken, hreach3.2.1,
    service.createAccessToken, hA3, service.createRefreshToken, hR3, StoreRefreshToken,
    hreach3.2.2]
  rfl

/-- C9 (witness): the statement on the demo registration, a login at instant 0
and a refresh of the returned token one hour later. -/
theorem C9_register_login_refresh_witness :
    demoService.Refresh demoJWT (demoEnv (60 * Minute) "r2")
        { emptyWorld with
            users := [demoUser], nextID := 2,
            ledger := Ledger.set [] "r1" (Sprint demoUser.ID) demoService.refreshTokenTTL }
        "1.r1"
      = ({ emptyWorld with
            users := [demoUser], nextID := 2,
            ledger :=
              ((Ledger.set [] "r1" (Sprint demoUser.ID) demoService.refreshTokenTTL).del
                "r1").set "r2" (Sprint demoUser.ID) demoService.refreshTokenTTL },
          "1.", "1.r2", none) :=
  (C9_register_login_refresh demoService demoJWT demoBcrypt (demoEnv 0 "") (demoEnv 0 "r1")
    (demoEnv (60 * Minute) "r2") emptyWorld { emptyWorld with users := [demoUser], nextID := 2 }
    "a@x.com" "password123" demoUser "1." "1.r1" "1." "1.r2"
    (by decide)
    (fun hash hh => by
      have h0 : demoBcrypt.GenerateFromPassword "password123" (demoEnv 0 "").salt
          = .ok "bcrypt(password123)" := by decide
      rw [h0] at hh; cases hh; decide)
    (by decide)
    ⟨by decide, by decide, by decide, by decide⟩
    ⟨by decide, by decide, by decide, by decide⟩
    (by decide) (by decide) (by decide) (by decide)).2.2.2.2.2.2.2.2.2



/-! ## C10: the gatekeeper accepts refresh tokens and never consults the ledger -/

theorem splitSpace_no_space (cs : List Char) (h : ' ' ∉ cs) : splitSpace cs = [cs] := by
  induction cs with
  | nil => rfl
  | cons c rest ih =>
    have hc : c ≠ ' ' := fun e => h (by rw [e]; exact List.mem_cons_self _ _)
    have hrest : ' ' ∉ rest := fun m => h (List.mem_cons_of_mem _ m)
    simp only [splitSpace, ih hrest, if_neg hc]

theorem splitSpace_bearer (t : List Char) (h : ' ' ∉ t) :
    splitSpace ("Bearer ".data ++ t) = ["Bearer".data, t] := by
  have ht := splitSpace_no_space t h
  show splitSpace ('B' :: 'e' :: 'a' :: 'r' :: 'e' :: 'r' :: ' ' :: t) = _
  simp [splitSpace, ht]

/-- A header `Bearer <token>` whose token has no space and reads back, under the
middleware's key, as unexpired claims is let through with the claims' subject. -/
theorem AuthMiddleware_bearer (jwt : JWT) (jwtSecret : String) (now : Time) (c : Request)
    (tok : String) (m : SigningMethod) (claims : RegisteredClaims)
    (hparse : jwt.parseUnverified tok = some (m, claims))
    (hverify : jwt.verify m tok jwtSecret = true)
    (hclaims : validateClaims now claims = true)
    (hcompact : ' ' ∉ tok.data)
    (hpresented : c.Authorization = "Bearer " ++ tok ∨
      (c.Authorization = "" ∧ c.Cookie "access_token" = some tok)) :
    AuthMiddleware jwt jwtSecret now c = .next claims.Subject := by
  have hne : ("Bearer " ++ tok == "") = false := by
    have : ("Bearer " ++ tok) ≠ "" := by
      intro h
      have := congrArg String.length h
      simp at this
      exact absurd this.1 (by decide)
    simpa using this
  have hsplit : (splitSpace ("Bearer " ++ tok).data).map String.mk = ["Bearer", tok] := by
    rw [String.data_append, splitSpace_bearer tok.data hcompact]
    rfl
  have hp : ParseWithClaims jwt now tok (fun _ => .ok jwtSecret)
      = .ok { Method := m, Claims := claims, Valid := true } := by
    unfold ParseWithClaims
    rw [hparse]
    simp only [hverify, hclaims, if_true]
  unfold AuthMiddleware
  rcases hpresented with hh | ⟨hh, hcookie⟩
  · rw [hh]
    simp only [hne, Bool.false_eq_true, if_false, hsplit, hp]
    simp
  · rw [hh, hcookie]
    simp only [beq_self_eq_true, if_true, hsplit, hp]
    simp

/-- C10: a refresh token minted by `createRefreshToken` for a user (its compact string
has no space and reads back, under the service secret, as the claims that were signed),
presented as `Authorization: Bearer <token>` or, with no Authorization header, as the
`access_token` cookie, at any instant before its expiry, is let through by
`AuthMiddleware` under the same secret with `userID` set to the decimal user id. The
middleware is given no store state, so this holds whatever became of the ledger; in
particular after a successful `Logout` or `Refresh` of that token (the latter under a new
identifier) has removed its identifier from the ledger. -/
theorem C10_gatekeeper_accepts_refresh_token (s : service) (jwt : JWT) (env : Env)
    (w w1 : World) (user : User) (tok : String) (now : Time) (c : Request)
    (hmint : s.createRefreshToken jwt env w user = (w1, .ok tok))
    (hparse : jwt.parseUnverified tok = some (.HS256, refreshClaims s env user env.uuid))
    (hverify : jwt.verify .HS256 tok s.jwtSecret = true)
    (hcompact : ' ' ∉ tok.data)
    (hunexpired : now < NewNumericDate (env.now + s.refreshTokenTTL))
    (hpresented : c.Authorization = "Bearer " ++ tok ∨
      (c.Authorization = "" ∧ c.Cookie "access_token" = some tok)) :
    AuthMiddleware jwt s.jwtSecret now c = .next (Sprint user.ID) ∧
    w1.ledger.get env.uuid = some (Sprint user.ID) ∧
    (∀ env2 w2, s.Logout jwt env2 w1 tok = (w2, none) →
      w2.ledger.get env.uuid = none ∧
      AuthMiddleware jwt s.jwtSecret now c = .next (Sprint user.ID)) ∧
    (∀ env2 w2 a r, s.Refresh jwt env2 w1 tok = (w2, a, r, none) → env2.uuid ≠ env.uuid →
      w2.ledger.get env.uuid = none ∧
      AuthMiddleware jwt s.jwtSecret now c = .next (Sprint user.ID)) := by
  have hclaims : validateClaims now (refreshClaims s env user env.uuid) = true := by
    simp [validateClaims, refreshClaims, hunexpired]
  have hgate : AuthMiddleware jwt s.jwtSecret now c = .next (Sprint user.ID) :=
    AuthMiddleware_bearer jwt s.jwtSecret now c tok .HS256 _ hparse hverify hclaims hcompact
      hpresented
  obtain ⟨_, _, hw1⟩ := s.createRefreshToken_ok jwt env w w1 user tok hmint
  refine ⟨hgate, ?_, ?_, ?_⟩
  · rw [hw1]
    exact Ledger.get_set_self _ _ _ _
  · intro env2 w2 hlogout
    obtain ⟨claims, hv, _, hw2⟩ := s.Logout_ok jwt env2 w1 w2 tok hlogout
    obtain ⟨⟨m, hp, _⟩, _⟩ := (s.validateToken_ok_iff jwt env2.now tok claims).mp hv
    rw [hparse] at hp
    cases hp
    refine ⟨?_, hgate⟩
    rw [hw2]
    exact Ledger.get_del_self _ _
  · intro env2 w2 a r hrefresh hnew
    obtain ⟨claims, userID, hv, _, _, _, _, _, _, hw2⟩ :=
      s.Refresh_ok jwt env2 w1 w2 tok a r hrefresh
    obtain ⟨⟨m, hp, _⟩, _⟩ := (s.validateToken_ok_iff jwt env2.now tok claims).mp hv
    rw [hparse] at hp
    cases hp
    refine ⟨?_, hgate⟩
    rw [hw2]
    show ((w1.ledger.del env.uuid).set env2.uuid (Sprint userID) s.refreshTokenTTL).get env.uuid
      = none
    rw [Ledger.get_set_ne _ _ _ _ _ (fun h => hnew h.symm), Ledger.get_del_self]

/-- C10 (witness): the demo refresh token `"1.r1"`, minted at instant 0 for user 1 and
presented as a bearer header one hour later. -/
theorem C10_gatekeeper_accepts_refresh_token_witness :
    AuthMiddleware demoJWT demoService.jwtSecret (60 * Minute)
        { Authorization := "Bearer 1.r1", cookies := [], json := none }
      = .next "1" :=
  (C10_gatekeeper_accepts_refresh_token demoService demoJWT (demoEnv 0 "r1")
    { demoWorld with ledger := [] } demoWorld demoUser "1.r1" (60 * Minute)
    { Authorization := "Bearer 1.r1", cookies := [], json := none }
    (by decide) (by decide) (by decide) (by decide) (by decide) (Or.inl (by decide))).1

end AuthSystem
